import Mathlib

/-!
# Verification of the glium `texture/any.rs` texture-object core

A shallow embedding of `src/texture/any.rs`: the `Dimensions` shape union,
the `TextureAny` object with its lazily cached internal format, the
`TextureAnyMipmap` view, and the creation / upload / compressed-download
algorithms, modelled as pure functions that also return the trace of raw
driver (GL) calls they issue.  External collaborators (the format
negotiator `image_format`, the mipmap policy `MipmapsOption`, the
`Version` ordering) are not part of this file's source and are modelled
at their interface boundary.
-/

set_option autoImplicit false

namespace Glium

/-! ## Driver capability model -/

/-- The graphics API family, from `version::Api`. -/
inductive Api
  | Gl
  | GlEs
  deriving DecidableEq, Repr

/-- Modelled from the spec: a driver version. `version.rs` is not part of the
source under verification; the spec reads version gates per API family
("version ≥ 4.2", "GL ≥ 3.2", "below GL 3.0 / GLES 2.0"). -/
structure Version where
  api : Api
  major : Nat
  minor : Nat
  deriving DecidableEq, Repr

/-- Modelled from the spec: `v ≥ w` holds when both versions belong to the
same API family and `(major, minor)` is lexicographically at least `w`'s. -/
def Version.ge (v w : Version) : Bool :=
  v.api == w.api && (w.major < v.major || (v.major == w.major && w.minor ≤ v.minor))

/-- Modelled from the spec: `v < w`, used by the non-power-of-two gate
("driver version < 2.0"). -/
def Version.lt (v w : Version) : Bool :=
  v.api == w.api && (v.major < w.major || (v.major == w.major && v.minor < w.minor))

/-- The extension flags consulted by `texture/any.rs`. -/
structure Extensions where
  gl_arb_texture_non_power_of_two : Bool
  gl_arb_texture_storage : Bool
  gl_arb_texture_multisample : Bool
  gl_ext_framebuffer_object : Bool
  deriving DecidableEq, Repr

/-- The driver capability set: version plus extension flags. -/
structure Caps where
  version : Version
  extensions : Extensions
  deriving DecidableEq, Repr

/-- The mutable driver-context shadow state consulted by the operations:
pixel-store alignments and the texture bound to the active unit. -/
structure GLState where
  pixel_store_unpack_alignment : Nat
  pixel_store_pack_alignment : Nat
  bound_texture : Nat
  deriving DecidableEq, Repr

/-! ## Shapes, formats and errors -/

/-- `Dimensions`: the closed shape union from `texture/any.rs`. -/
inductive Dimensions
  | Texture1d (width : Nat)
  | Texture1dArray (width : Nat) (array_size : Nat)
  | Texture2d (width : Nat) (height : Nat)
  | Texture2dArray (width : Nat) (height : Nat) (array_size : Nat)
  | Texture2dMultisample (width : Nat) (height : Nat) (samples : Nat)
  | Texture2dMultisampleArray (width : Nat) (height : Nat) (array_size : Nat) (samples : Nat)
  | Texture3d (width : Nat) (height : Nat) (depth : Nat)
  deriving DecidableEq, Repr

/-- The driver bind-target codes used to dispatch on the shape class. -/
inductive BindPoint
  | TEXTURE_1D
  | TEXTURE_1D_ARRAY
  | TEXTURE_2D
  | TEXTURE_2D_ARRAY
  | TEXTURE_2D_MULTISAMPLE
  | TEXTURE_2D_MULTISAMPLE_ARRAY
  | TEXTURE_3D
  deriving DecidableEq, Repr

/-- Modelled from the spec: a concrete texture format; `image_format.rs` is
external to this source.  Only the depth / depth-stencil / other split
matters to `texture/any.rs` (the no-data client-format match). -/
inductive TextureFormat
  | DepthFormat (code : Nat)
  | DepthStencilFormat (code : Nat)
  | ColorFormat (code : Nat)
  deriving DecidableEq, Repr

/-- Modelled from the spec: the format request — "any depth",
"any depth+stencil", or a specific format. -/
inductive TextureFormatRequest
  | AnyDepth
  | AnyDepthStencil
  | Specific (f : TextureFormat)
  deriving DecidableEq, Repr

/-- A client-side pixel format descriptor (`ClientFormatAny`, external):
identified by a code, with its compressedness exposed. -/
structure ClientFormatAny where
  code : Nat
  compressed : Bool
  deriving DecidableEq, Repr

/-- `ClientFormatAny::is_compressed` at the interface boundary. -/
def ClientFormatAny.is_compressed (c : ClientFormatAny) : Bool := c.compressed

/-- The recoverable creation errors returned by `new_texture`. -/
inductive TextureCreationError
  | FormatNotSupported
  | DimensionsNotSupported
  deriving DecidableEq, Repr

/-- An internal-format description (external `InternalFormat`), opaque here. -/
structure InternalFormat where
  code : Nat
  deriving DecidableEq, Repr

/-- A format-query failure (external `GetFormatError`), opaque here. -/
structure GetFormatError where
  code : Nat
  deriving DecidableEq, Repr

/-- The external `image_format` negotiator and buffer-size oracle, specified
only at its interface boundary: `format_request_to_glenum` yields the
upload format code and the optional allocation-format code (`none` models
its `FormatNotSupported` failure); `client_format_to_glenum` yields the
client format/type code pair; `get_buffer_size` is
`ClientFormatAny::get_buffer_size`; `from_internal_compressed_format` maps a
driver-internal compressed code back to a known client format. -/
structure ImageFormatEnv where
  format_request_to_glenum :
    Option ClientFormatAny → TextureFormatRequest → Option (Nat × Option Nat)
  client_format_to_glenum :
    ClientFormatAny → TextureFormatRequest → Option (Nat × Nat)
  get_buffer_size :
    ClientFormatAny → Nat → Option Nat → Option Nat → Option Nat → Nat
  from_internal_compressed_format : Nat → Option ClientFormatAny

/-! ## The texture object and mipmap views -/

instance instDecEqExcept {ε α : Type} [DecidableEq ε] [DecidableEq α] :
    DecidableEq (Except ε α) := fun a b =>
  match a, b with
  | .error x, .error y =>
      if h : x = y then .isTrue (by rw [h])
      else .isFalse (by intro hc; cases hc; exact h rfl)
  | .error _, .ok _ => .isFalse (by intro hc; cases hc)
  | .ok _, .error _ => .isFalse (by intro hc; cases hc)
  | .ok x, .ok y =>
      if h : x = y then .isTrue (by rw [h])
      else .isFalse (by intro hc; cases hc; exact h rfl)

/-- `TextureAny`: one driver texture handle plus its immutable description
and the mutable actual-format cache (`Cell<Option<Result<..>>>`). -/
structure TextureAny where
  id : Nat
  requested_format : TextureFormatRequest
  actual_format : Option (Except GetFormatError InternalFormat)
  ty : Dimensions
  levels : Nat
  generate_mipmaps : Bool
  deriving DecidableEq, Repr

/-- `TextureAnyMipmap`: a view of one (layer, level) slice with its resolved
per-level extents. -/
structure TextureAnyMipmap where
  texture : TextureAny
  layer : Nat
  level : Nat
  width : Nat
  height : Option Nat
  depth : Option Nat
  deriving DecidableEq, Repr

/-- `TextureAny::get_width`. -/
def TextureAny.get_width (t : TextureAny) : Nat :=
  match t.ty with
  | .Texture1d width => width
  | .Texture1dArray width _ => width
  | .Texture2d width _ => width
  | .Texture2dArray width _ _ => width
  | .Texture2dMultisample width _ _ => width
  | .Texture2dMultisampleArray width _ _ _ => width
  | .Texture3d width _ _ => width

/-- `TextureAny::get_height`. -/
def TextureAny.get_height (t : TextureAny) : Option Nat :=
  match t.ty with
  | .Texture1d _ => none
  | .Texture1dArray _ _ => none
  | .Texture2d _ height => some height
  | .Texture2dArray _ height _ => some height
  | .Texture2dMultisample _ height _ => some height
  | .Texture2dMultisampleArray _ height _ _ => some height
  | .Texture3d _ height _ => some height

/-- `TextureAny::get_depth`. -/
def TextureAny.get_depth (t : TextureAny) : Option Nat :=
  match t.ty with
  | .Texture3d _ _ depth => some depth
  | _ => none

/-- `TextureAny::get_array_size`. -/
def TextureAny.get_array_size (t : TextureAny) : Option Nat :=
  match t.ty with
  | .Texture1d _ => none
  | .Texture1dArray _ array_size => some array_size
  | .Texture2d _ _ => none
  | .Texture2dArray _ _ array_size => some array_size
  | .Texture2dMultisample _ _ _ => none
  | .Texture2dMultisampleArray _ _ array_size _ => some array_size
  | .Texture3d _ _ _ => none

/-- `TextureAny::get_mipmap_levels`. -/
def TextureAny.get_mipmap_levels (t : TextureAny) : Nat := t.levels

/-- `TextureExt::get_bind_point`. -/
def TextureAny.get_bind_point (t : TextureAny) : BindPoint :=
  match t.ty with
  | .Texture1d _ => .TEXTURE_1D
  | .Texture1dArray _ _ => .TEXTURE_1D_ARRAY
  | .Texture2d _ _ => .TEXTURE_2D
  | .Texture2dArray _ _ _ => .TEXTURE_2D_ARRAY
  | .Texture2dMultisample _ _ _ => .TEXTURE_2D_MULTISAMPLE
  | .Texture2dMultisampleArray _ _ _ _ => .TEXTURE_2D_MULTISAMPLE_ARRAY
  | .Texture3d _ _ _ => .TEXTURE_3D

/-- `TextureAny::mipmap(layer, level)`: `None` when out of range, otherwise
the view with per-level extents `max(1, extent / 2^level)`. -/
def TextureAny.mipmap (t : TextureAny) (layer level : Nat) : Option TextureAnyMipmap :=
  if layer ≥ (t.get_array_size).getD 1 then
    none
  else if level ≥ t.levels then
    none
  else
    let pow := 2 ^ level
    some { texture := t
           level := level
           layer := layer
           width := max 1 (t.get_width / pow)
           height := t.get_height.map (fun height => max 1 (height / pow))
           depth := t.get_depth.map (fun depth => max 1 (depth / pow)) }

/-! ## Driver call traces

Every stateful operation is modelled as a pure function that also returns
the list of raw driver calls it issues, in order.  Pointer arguments are
recorded as a `dataNull` flag (the only property of the pointer the code
controls). -/

def GL_UNPACK_ALIGNMENT : Nat := 0x0CF5
def GL_PACK_ALIGNMENT : Nat := 0x0D05
def GL_TEXTURE_WRAP_S : Nat := 0x2802
def GL_TEXTURE_WRAP_T : Nat := 0x2803
def GL_TEXTURE_WRAP_R : Nat := 0x8072
def GL_REPEAT : Nat := 0x2901
def GL_TEXTURE_MAG_FILTER : Nat := 0x2800
def GL_TEXTURE_MIN_FILTER : Nat := 0x2801
def GL_LINEAR : Nat := 0x2601
def GL_LINEAR_MIPMAP_LINEAR : Nat := 0x2703
def GL_TEXTURE_BASE_LEVEL : Nat := 0x813C
def GL_TEXTURE_MAX_LEVEL : Nat := 0x813D
def GL_DEPTH_COMPONENT : Nat := 0x1902
def GL_FLOAT : Nat := 0x1406
def GL_DEPTH_STENCIL : Nat := 0x84F9
def GL_UNSIGNED_INT_24_8 : Nat := 0x84FA
def GL_RGBA : Nat := 0x1908
def GL_UNSIGNED_BYTE : Nat := 0x1401
def GL_TEXTURE_COMPRESSED : Nat := 0x86A1
def GL_TEXTURE_COMPRESSED_IMAGE_SIZE : Nat := 0x86A0
def GL_TEXTURE_INTERNAL_FORMAT : Nat := 0x1003

/-- One raw driver call, as issued by the embedded operations. -/
inductive GLCall
  | PixelStorei (pname : Nat) (value : Nat)
  | UnbindPixelUnpack
  | UnbindPixelPack
  | GenTextures
  | BindTexture (target : BindPoint) (id : Nat)
  | TexParameteri (target : BindPoint) (pname : Nat) (value : Nat)
  | TexStorage1D (target : BindPoint) (levels : Nat) (ifmt : Nat) (w : Nat)
  | TexStorage2D (target : BindPoint) (levels : Nat) (ifmt : Nat) (w h : Nat)
  | TexStorage3D (target : BindPoint) (levels : Nat) (ifmt : Nat) (w h d : Nat)
  | TexStorage2DMultisample (target : BindPoint) (samples ifmt w h : Nat)
  | TexStorage3DMultisample (target : BindPoint) (samples ifmt w h d : Nat)
  | TexImage1D (target : BindPoint) (level ifmt w cfmt ctype : Nat) (dataNull : Bool)
  | TexImage2D (target : BindPoint) (level ifmt w h cfmt ctype : Nat) (dataNull : Bool)
  | TexImage3D (target : BindPoint) (level ifmt w h d cfmt ctype : Nat) (dataNull : Bool)
  | CompressedTexImage1D (target : BindPoint) (level ifmt w size : Nat) (dataNull : Bool)
  | CompressedTexImage2D (target : BindPoint) (level ifmt w h size : Nat) (dataNull : Bool)
  | CompressedTexImage3D (target : BindPoint) (level ifmt w h d size : Nat) (dataNull : Bool)
  | TexImage2DMultisample (target : BindPoint) (samples ifmt w h : Nat)
  | TexImage3DMultisample (target : BindPoint) (samples ifmt w h d : Nat)
  | TexSubImage1D (target : BindPoint) (level xoff w cfmt ctype : Nat) (dataNull : Bool)
  | TexSubImage2D (target : BindPoint) (level xoff yoff w h cfmt ctype : Nat) (dataNull : Bool)
  | TexSubImage3D (target : BindPoint) (level xoff yoff zoff w h d cfmt ctype : Nat) (dataNull : Bool)
  | CompressedTexSubImage1D (target : BindPoint) (level xoff w ifmt size : Nat) (dataNull : Bool)
  | CompressedTexSubImage2D (target : BindPoint) (level xoff yoff w h ifmt size : Nat) (dataNull : Bool)
  | CompressedTexSubImage3D (target : BindPoint) (level xoff yoff zoff w h d ifmt size : Nat) (dataNull : Bool)
  | GenerateMipmap (target : BindPoint)
  | GenerateMipmapEXT (target : BindPoint)
  | GetTexLevelParameteriv (target : BindPoint) (level pname : Nat)
  | GetCompressedTexImage (target : BindPoint) (level : Nat)
  deriving DecidableEq, Repr

namespace GLCall

/-- Is this call an immutable-storage allocation (`glTexStorage*`)? -/
def isStorageAlloc : GLCall → Bool
  | .TexStorage1D _ _ _ _ => true
  | .TexStorage2D _ _ _ _ _ => true
  | .TexStorage3D _ _ _ _ _ _ => true
  | .TexStorage2DMultisample _ _ _ _ _ => true
  | .TexStorage3DMultisample _ _ _ _ _ _ => true
  | _ => false

/-- Is this call a legacy image allocation (`glTexImage*` /
`glCompressedTexImage*`, multisample variants included)? -/
def isImageAlloc : GLCall → Bool
  | .TexImage1D _ _ _ _ _ _ _ => true
  | .TexImage2D _ _ _ _ _ _ _ _ => true
  | .TexImage3D _ _ _ _ _ _ _ _ _ => true
  | .CompressedTexImage1D _ _ _ _ _ _ => true
  | .CompressedTexImage2D _ _ _ _ _ _ _ => true
  | .CompressedTexImage3D _ _ _ _ _ _ _ _ => true
  | .TexImage2DMultisample _ _ _ _ _ => true
  | .TexImage3DMultisample _ _ _ _ _ _ => true
  | _ => false

/-- Is this call an allocation of texture storage of either kind? -/
def isAlloc (c : GLCall) : Bool := c.isStorageAlloc || c.isImageAlloc

/-- Is this call a sub-region upload (`glTexSubImage*` /
`glCompressedTexSubImage*`)? -/
def isSubImage : GLCall → Bool
  | .TexSubImage1D _ _ _ _ _ _ _ => true
  | .TexSubImage2D _ _ _ _ _ _ _ _ _ => true
  | .TexSubImage3D _ _ _ _ _ _ _ _ _ _ _ => true
  | .CompressedTexSubImage1D _ _ _ _ _ _ _ => true
  | .CompressedTexSubImage2D _ _ _ _ _ _ _ _ _ => true
  | .CompressedTexSubImage3D _ _ _ _ _ _ _ _ _ _ _ => true
  | _ => false

/-- The mipmap level targeted by an image or sub-image call, if any. -/
def uploadLevel : GLCall → Option Nat
  | .TexImage1D _ level _ _ _ _ _ => some level
  | .TexImage2D _ level _ _ _ _ _ _ => some level
  | .TexImage3D _ level _ _ _ _ _ _ _ => some level
  | .CompressedTexImage1D _ level _ _ _ _ => some level
  | .CompressedTexImage2D _ level _ _ _ _ _ => some level
  | .CompressedTexImage3D _ level _ _ _ _ _ _ => some level
  | .TexSubImage1D _ level _ _ _ _ _ => some level
  | .TexSubImage2D _ level _ _ _ _ _ _ _ => some level
  | .TexSubImage3D _ level _ _ _ _ _ _ _ _ _ => some level
  | .CompressedTexSubImage1D _ level _ _ _ _ _ => some level
  | .CompressedTexSubImage2D _ level _ _ _ _ _ _ _ => some level
  | .CompressedTexSubImage3D _ level _ _ _ _ _ _ _ _ _ => some level
  | _ => none

/-- The mipmap-chain length passed to a `glTexStorage{1,2,3}D` call. -/
def storageLevels : GLCall → Option Nat
  | .TexStorage1D _ levels _ _ => some levels
  | .TexStorage2D _ levels _ _ _ => some levels
  | .TexStorage3D _ levels _ _ _ _ => some levels
  | _ => none

/-- The null-ness of the data pointer handed to a call, for the calls that
carry one. -/
def dataPtrNull : GLCall → Option Bool
  | .TexImage1D _ _ _ _ _ _ b => some b
  | .TexImage2D _ _ _ _ _ _ _ b => some b
  | .TexImage3D _ _ _ _ _ _ _ _ b => some b
  | .CompressedTexImage1D _ _ _ _ _ b => some b
  | .CompressedTexImage2D _ _ _ _ _ _ b => some b
  | .CompressedTexImage3D _ _ _ _ _ _ _ b => some b
  | .TexSubImage1D _ _ _ _ _ _ b => some b
  | .TexSubImage2D _ _ _ _ _ _ _ _ b => some b
  | .TexSubImage3D _ _ _ _ _ _ _ _ _ _ b => some b
  | .CompressedTexSubImage1D _ _ _ _ _ _ b => some b
  | .CompressedTexSubImage2D _ _ _ _ _ _ _ _ b => some b
  | .CompressedTexSubImage3D _ _ _ _ _ _ _ _ _ _ b => some b
  | _ => none

end GLCall

/-! ## Creation (`new_texture`) -/

/-- Modelled from the spec: the mipmap policy — none, a fixed level count,
or auto-generation to the full chain (`MipmapsOption` lives in
`texture/mod.rs`, outside this source). -/
inductive MipmapsOption
  | NoMipmap
  | Fixed (n : Nat)
  | AutoGenerated
  deriving DecidableEq, Repr

/-- Modelled from the spec: only the auto policy triggers generation. -/
def MipmapsOption.should_generate : MipmapsOption → Bool
  | .AutoGenerated => true
  | _ => false

/-- `floor(log2 n)` by fuel recursion (0 at 0 and 1); the fuel `n` always
suffices since the argument halves each step. -/
def floorLog2Aux : Nat → Nat → Nat
  | 0, _ => 0
  | fuel + 1, n => if n ≥ 2 then floorLog2Aux fuel (n / 2) + 1 else 0

/-- `floor(log2 n)`, total and kernel-computable. -/
def floorLog2 (n : Nat) : Nat := floorLog2Aux n n

/-- Modelled from the spec: resolved level count — none→1, fixed n→n,
auto→`floor(log2(max extent)) + 1`. -/
def MipmapsOption.num_levels (m : MipmapsOption) (w : Nat) (h d : Option Nat) : Nat :=
  match m with
  | .NoMipmap => 1
  | .Fixed n => n
  | .AutoGenerated => floorLog2 (max w (max (h.getD 1) (d.getD 1))) + 1

/-- `u32::is_power_of_two`: true exactly for 2^k with k ≥ 0; false at 0. -/
def is_power_of_two (n : Nat) : Bool := n != 0 && (n &&& (n - 1)) == 0

/-- Decompose `Dimensions` into `(width, height?, depth?, array_size?,
samples?)`, as at the top of `new_texture`. -/
def dims_of (ty : Dimensions) :
    Nat × Option Nat × Option Nat × Option Nat × Option Nat :=
  match ty with
  | .Texture1d width => (width, none, none, none, none)
  | .Texture1dArray width array_size => (width, none, none, some array_size, none)
  | .Texture2d width height => (width, some height, none, none, none)
  | .Texture2dArray width height array_size => (width, some height, none, some array_size, none)
  | .Texture2dMultisample width height samples => (width, some height, none, none, some samples)
  | .Texture2dMultisampleArray width height array_size samples =>
      (width, some height, none, some array_size, some samples)
  | .Texture3d width height depth => (width, some height, some depth, none, none)

/-- The bind-target of a shape (the `bind_point` table in `new_texture`). -/
def bindPointOf (ty : Dimensions) : BindPoint :=
  match ty with
  | .Texture1d _ => .TEXTURE_1D
  | .Texture1dArray _ _ => .TEXTURE_1D_ARRAY
  | .Texture2d _ _ => .TEXTURE_2D
  | .Texture2dArray _ _ _ => .TEXTURE_2D_ARRAY
  | .Texture2dMultisample _ _ _ => .TEXTURE_2D_MULTISAMPLE
  | .Texture2dMultisampleArray _ _ _ _ => .TEXTURE_2D_MULTISAMPLE_ARRAY
  | .Texture3d _ _ _ => .TEXTURE_3D

/-- The non-power-of-two gate of `new_texture`: fails when the driver is
below GL 2.0 without `GL_ARB_texture_non_power_of_two` and some present
extent (absent axes default to 2) is not a power of two. -/
def npotFails (caps : Caps) (w : Nat) (h d a : Option Nat) : Bool :=
  Version.lt caps.version ⟨.Gl, 2, 0⟩ &&
  !caps.extensions.gl_arb_texture_non_power_of_two &&
  (!is_power_of_two w || !is_power_of_two (h.getD 2) ||
   !is_power_of_two (d.getD 2) || !is_power_of_two (a.getD 2))

/-- The storage-allocation capability gate repeated in each branch of
`new_texture`: GL ≥ 4.2 or `GL_ARB_texture_storage`. -/
def storageCap (caps : Caps) : Bool :=
  Version.ge caps.version ⟨.Gl, 4, 2⟩ || caps.extensions.gl_arb_texture_storage

/-- The multisample-allocation capability gate: GL ≥ 3.2 or
`GL_ARB_texture_multisample`. -/
def multisampleCap (caps : Caps) : Bool :=
  Version.ge caps.version ⟨.Gl, 3, 2⟩ || caps.extensions.gl_arb_texture_multisample

/-- The mipmap-generation capability gate: GL ≥ 3.0, GLES ≥ 2.0, or
`GL_EXT_framebuffer_object`. -/
def genMipmapCap (caps : Caps) : Bool :=
  Version.ge caps.version ⟨.Gl, 3, 0⟩ || Version.ge caps.version ⟨.GlEs, 2, 0⟩ ||
  caps.extensions.gl_ext_framebuffer_object

/-- The zero-extent clamp of `new_texture`: a zero axis becomes 1 and
forces the data pointer to null. -/
def clampAxis (extent : Nat) (isNull : Bool) : Nat × Bool :=
  if extent = 0 then (1, true) else (extent, isNull)

/-- Outcome of `new_texture`: success with the issued calls and the built
texture, a recoverable creation error, or an abort (`panic!`, `assert!`,
`unreachable!`) with the calls issued before it. -/
inductive CreationOutcome
  | ok (calls : List GLCall) (tex : TextureAny)
  | err (e : TextureCreationError)
  | fatal (calls : List GLCall) (msg : String)
  deriving DecidableEq, Repr

/-- The `glTexStorage3D`/`glTexImage3D` branch of `new_texture`
(`TEXTURE_3D` and `TEXTURE_2D_ARRAY` targets). -/
def alloc3d (storageCond : Bool) (bp : BindPoint) (teximg : Nat)
    (storage : Option Nat) (cfmt ctype texLevels : Nat) (isComp : Bool)
    (bufsize : Nat) (w h dpt : Nat) (dataNull : Bool) : List GLCall :=
  let p1 := clampAxis w dataNull
  let p2 := clampAxis h p1.2
  let p3 := clampAxis dpt p2.2
  if storageCond then
    GLCall.TexStorage3D bp texLevels (storage.getD 0) p1.1 p2.1 p3.1 ::
      (if !p3.2 then
        [if isComp then
          GLCall.CompressedTexSubImage3D bp 0 0 0 0 p1.1 p2.1 p3.1 teximg bufsize false
         else
          GLCall.TexSubImage3D bp 0 0 0 0 p1.1 p2.1 p3.1 cfmt ctype false]
       else [])
  else
    if isComp && !p3.2 then
      [GLCall.CompressedTexImage3D bp 0 teximg p1.1 p2.1 p3.1 bufsize false]
    else
      [GLCall.TexImage3D bp 0 teximg p1.1 p2.1 p3.1 cfmt ctype p3.2]

/-- The `glTexStorage2D`/`glTexImage2D` branch of `new_texture`
(`TEXTURE_2D` and `TEXTURE_1D_ARRAY` targets). -/
def alloc2d (storageCond : Bool) (bp : BindPoint) (teximg : Nat)
    (storage : Option Nat) (cfmt ctype texLevels : Nat) (isComp : Bool)
    (bufsize : Nat) (w h : Nat) (dataNull : Bool) : List GLCall :=
  let p1 := clampAxis w dataNull
  let p2 := clampAxis h p1.2
  if storageCond then
    GLCall.TexStorage2D bp texLevels (storage.getD 0) p1.1 p2.1 ::
      (if !p2.2 then
        [if isComp then
          GLCall.CompressedTexSubImage2D bp 0 0 0 p1.1 p2.1 teximg bufsize false
         else
          GLCall.TexSubImage2D bp 0 0 0 p1.1 p2.1 cfmt ctype false]
       else [])
  else
    if isComp && !p2.2 then
      [GLCall.CompressedTexImage2D bp 0 teximg p1.1 p2.1 bufsize false]
    else
      [GLCall.TexImage2D bp 0 teximg p1.1 p2.1 cfmt ctype p2.2]

/-- The `glTexStorage1D`/`glTexImage1D` branch of `new_texture`. -/
def alloc1d (storageCond : Bool) (bp : BindPoint) (teximg : Nat)
    (storage : Option Nat) (cfmt ctype texLevels : Nat) (isComp : Bool)
    (bufsize : Nat) (w : Nat) (dataNull : Bool) : List GLCall :=
  let p1 := clampAxis w dataNull
  if storageCond then
    GLCall.TexStorage1D bp texLevels (storage.getD 0) p1.1 ::
      (if !p1.2 then
        [if isComp then
          GLCall.CompressedTexSubImage1D bp 0 0 p1.1 teximg bufsize false
         else
          GLCall.TexSubImage1D bp 0 0 p1.1 cfmt ctype false]
       else [])
  else
    if isComp && !p1.2 then
      [GLCall.CompressedTexImage1D bp 0 teximg p1.1 bufsize false]
    else
      [GLCall.TexImage1D bp 0 teximg p1.1 cfmt ctype p1.2]

/-- The `TEXTURE_2D_MULTISAMPLE` branch of `new_texture`: asserts the data
pointer is null, then allocates via storage, the multisample image entry
point, or hits `unreachable!`. -/
def allocMs2d (storageCond msCap : Bool) (teximg : Nat) (storage : Option Nat)
    (samples w h : Nat) (dataNull : Bool) : Except String (List GLCall) :=
  if !dataNull then
    .error "assertion failed: data_raw.is_null()"
  else
    let w1 := if w = 0 then 1 else w
    let h1 := if h = 0 then 1 else h
    if storageCond then
      .ok [GLCall.TexStorage2DMultisample .TEXTURE_2D_MULTISAMPLE samples (storage.getD 0) w1 h1]
    else if msCap then
      .ok [GLCall.TexImage2DMultisample .TEXTURE_2D_MULTISAMPLE samples teximg w1 h1]
    else
      .error "internal error: entered unreachable code"

/-- The `TEXTURE_2D_MULTISAMPLE_ARRAY` branch of `new_texture`.  Note the
array-size axis is passed through without the zero clamp. -/
def allocMs3d (storageCond msCap : Bool) (teximg : Nat) (storage : Option Nat)
    (samples w h array_size : Nat) (dataNull : Bool) : Except String (List GLCall) :=
  if !dataNull then
    .error "assertion failed: data_raw.is_null()"
  else
    let w1 := if w = 0 then 1 else w
    let h1 := if h = 0 then 1 else h
    if storageCond then
      .ok [GLCall.TexStorage3DMultisample .TEXTURE_2D_MULTISAMPLE_ARRAY samples (storage.getD 0) w1 h1 array_size]
    else if msCap then
      .ok [GLCall.TexImage3DMultisample .TEXTURE_2D_MULTISAMPLE_ARRAY samples teximg w1 h1 array_size]
    else
      .error "internal error: entered unreachable code"

/-- The dimensional dispatch of `new_texture`'s allocation phase. -/
def allocCalls (caps : Caps) (ty : Dimensions) (teximg : Nat)
    (storage : Option Nat) (cfmt ctype texLevels : Nat) (isComp : Bool)
    (bufsize : Nat) (dataNull : Bool) : Except String (List GLCall) :=
  let storageCond := storage.isSome && storageCap caps
  match ty with
  | .Texture3d w h dpt =>
      .ok (alloc3d storageCond .TEXTURE_3D teximg storage cfmt ctype texLevels isComp bufsize w h dpt dataNull)
  | .Texture2dArray w h array_size =>
      .ok (alloc3d storageCond .TEXTURE_2D_ARRAY teximg storage cfmt ctype texLevels isComp bufsize w h array_size dataNull)
  | .Texture2d w h =>
      .ok (alloc2d storageCond .TEXTURE_2D teximg storage cfmt ctype texLevels isComp bufsize w h dataNull)
  | .Texture1dArray w array_size =>
      .ok (alloc2d storageCond .TEXTURE_1D_ARRAY teximg storage cfmt ctype texLevels isComp bufsize w array_size dataNull)
  | .Texture2dMultisample w h samples =>
      allocMs2d storageCond (multisampleCap caps) teximg storage samples w h dataNull
  | .Texture2dMultisampleArray w h array_size samples =>
      allocMs3d storageCond (multisampleCap caps) teximg storage samples w h array_size dataNull
  | .Texture1d w =>
      .ok (alloc1d storageCond .TEXTURE_1D teximg storage cfmt ctype texLevels isComp bufsize w dataNull)

/-- The mipmap-generation phase at the end of `new_texture`. -/
def genMipmapCalls (caps : Caps) (generate : Bool) (bp : BindPoint) :
    Except String (List GLCall) :=
  if generate then
    if Version.ge caps.version ⟨.Gl, 3, 0⟩ || Version.ge caps.version ⟨.GlEs, 2, 0⟩ then
      .ok [GLCall.GenerateMipmap bp]
    else if caps.extensions.gl_ext_framebuffer_object then
      .ok [GLCall.GenerateMipmapEXT bp]
    else
      .error "internal error: entered unreachable code"
  else
    .ok []

/-- The setup calls of `new_texture`'s unsafe block, issued before the
allocation dispatch: pixel-store alignment, unbind, `glGenTextures`, bind,
and the `glTexParameteri` configuration. -/
def preludeCalls (caps : Caps) (st : GLState) (ty : Dimensions) (bp : BindPoint)
    (id : Nat) (has_mipmaps : Bool) : List GLCall :=
  (if st.pixel_store_unpack_alignment ≠ 1 then [GLCall.PixelStorei GL_UNPACK_ALIGNMENT 1] else []) ++
  [GLCall.UnbindPixelUnpack, GLCall.GenTextures, GLCall.BindTexture bp id,
   GLCall.TexParameteri bp GL_TEXTURE_WRAP_S GL_REPEAT,
   GLCall.TexParameteri bp GL_TEXTURE_MAG_FILTER GL_LINEAR] ++
  (match ty with
   | .Texture1d _ => []
   | _ => [GLCall.TexParameteri bp GL_TEXTURE_WRAP_T GL_REPEAT]) ++
  (match ty with
   | .Texture1d _ => []
   | .Texture2d _ _ => []
   | .Texture2dMultisample _ _ _ => []
   | _ => [GLCall.TexParameteri bp GL_TEXTURE_WRAP_R GL_REPEAT]) ++
  [GLCall.TexParameteri bp GL_TEXTURE_MIN_FILTER
    (if has_mipmaps then GL_LINEAR_MIPMAP_LINEAR else GL_LINEAR)] ++
  (if !has_mipmaps &&
      (Version.ge caps.version ⟨.Gl, 1, 2⟩ || Version.ge caps.version ⟨.GlEs, 3, 0⟩) then
    [GLCall.TexParameteri bp GL_TEXTURE_BASE_LEVEL 0,
     GLCall.TexParameteri bp GL_TEXTURE_MAX_LEVEL 0]
   else [])

/-- The client-format/type resolution of `new_texture` (source lines
matching on `(&data, format)`): present data goes through the negotiator,
absent data picks fixed codes by format class. -/
def clientPairOf (env : ImageFormatEnv) (data : Option (ClientFormatAny × Nat))
    (format : TextureFormatRequest) : Option (Nat × Nat) :=
  match data, format with
  | some (client_format, _), f => env.client_format_to_glenum client_format f
  | none, .AnyDepth => some (GL_DEPTH_COMPONENT, GL_FLOAT)
  | none, .Specific (.DepthFormat _) => some (GL_DEPTH_COMPONENT, GL_FLOAT)
  | none, .AnyDepthStencil => some (GL_DEPTH_STENCIL, GL_UNSIGNED_INT_24_8)
  | none, .Specific (.DepthStencilFormat _) => some (GL_DEPTH_STENCIL, GL_UNSIGNED_INT_24_8)
  | none, _ => some (GL_RGBA, GL_UNSIGNED_BYTE)

/-- `is_client_compressed` in `new_texture`: whether the supplied client
format is compressed (false when no data is supplied). -/
def isCompOf (data : Option (ClientFormatAny × Nat)) : Bool :=
  match data with
  | some (client_format, _) => client_format.is_compressed
  | none => false

/-- `data_bufsize` in `new_texture`: the expected byte size of the supplied
data (0 when no data is supplied). -/
def bufsizeOf (env : ImageFormatEnv) (data : Option (ClientFormatAny × Nat))
    (ty : Dimensions) : Nat :=
  match data with
  | some (client_format, _) =>
      env.get_buffer_size client_format (dims_of ty).1 (dims_of ty).2.1
        (dims_of ty).2.2.1 (dims_of ty).2.2.2.1
  | none => 0

/-- The data-size precondition check of `new_texture`: present data whose
byte length differs from `ClientFormatAny::get_buffer_size` is a caller
bug. -/
def sizeMismatchOf (env : ImageFormatEnv) (data : Option (ClientFormatAny × Nat))
    (ty : Dimensions) : Bool :=
  match data with
  | some (client_format, bytelen) =>
      bytelen != env.get_buffer_size client_format (dims_of ty).1 (dims_of ty).2.1
        (dims_of ty).2.2.1 (dims_of ty).2.2.2.1
  | none => false

/-- `new_texture`: the creation algorithm.  `data` carries the client
format and the byte length of the supplied slice; `newId` is the handle
`glGenTextures` hands back. -/
def new_texture (env : ImageFormatEnv) (caps : Caps) (st : GLState)
    (format : TextureFormatRequest) (data : Option (ClientFormatAny × Nat))
    (mipmaps : MipmapsOption) (ty : Dimensions) (newId : Nat) : CreationOutcome :=
  let dims := dims_of ty
  let width := dims.1
  let height := dims.2.1
  let depth := dims.2.2.1
  let array_size := dims.2.2.2.1
  let is_client_compressed := isCompOf data
  let data_bufsize := bufsizeOf env data ty
  if sizeMismatchOf env data ty then
    .fatal [] "Texture data size mismatch"
  else
    let bp := bindPointOf ty
    if npotFails caps width height depth array_size then
      .err .DimensionsNotSupported
    else
      let generate_mipmaps := mipmaps.should_generate
      let texture_levels := mipmaps.num_levels width height depth
      match env.format_request_to_glenum (data.map Prod.fst) format with
      | none => .err .FormatNotSupported
      | some (teximg, storage) =>
        match clientPairOf env data format with
        | none => .err .FormatNotSupported
        | some (client_format, client_type) =>
          let has_mipmaps := texture_levels > 1
          let dataNull := data.isNone
          let pre := preludeCalls caps st ty bp newId has_mipmaps
          match allocCalls caps ty teximg storage client_format client_type
                  texture_levels is_client_compressed data_bufsize dataNull with
          | .error msg => .fatal pre msg
          | .ok ac =>
            match genMipmapCalls caps generate_mipmaps bp with
            | .error msg => .fatal (pre ++ ac) msg
            | .ok gc =>
              .ok (pre ++ ac ++ gc)
                { id := newId
                  requested_format := format
                  actual_format := none
                  ty := ty
                  levels := texture_levels
                  generate_mipmaps := generate_mipmaps }

/-! ## Mipmap-view pixel transfer -/

/-- `TextureExt::bind_to_current`: binds the texture unless the active
unit's shadow already holds it; returns the calls, the updated shadow
state, and the bind point. -/
def bind_to_current (st : GLState) (t : TextureAny) :
    List GLCall × GLState × BindPoint :=
  let bp := t.get_bind_point
  if st.bound_texture != t.id then
    ([GLCall.BindTexture bp t.id], { st with bound_texture := t.id }, bp)
  else
    ([], st, bp)

/-- The setup calls of `upload_texture` before the dispatch: pixel-store
alignment, pixel-unpack unbind, and the conditional bind. -/
def uploadPrelude (st : GLState) (t : TextureAny) : List GLCall :=
  (if st.pixel_store_unpack_alignment ≠ 1 then
    [GLCall.PixelStorei GL_UNPACK_ALIGNMENT 1]
   else []) ++
  [GLCall.UnbindPixelUnpack] ++ (bind_to_current st t).1

/-- Outcome of `TextureAnyMipmap::upload_texture`: success with the issued
calls, the recoverable `Err(())`, or an abort (`assert!`, `panic!`,
`unimplemented!`) with the calls issued before it. -/
inductive UploadOutcome
  | ok (calls : List GLCall)
  | err
  | fatal (calls : List GLCall) (msg : String)
  deriving DecidableEq, Repr

/-- The precondition checks at the head of `upload_texture`, in source
order: the regenerate-at-level-0 assert (on the already-weakened flag),
the six offset/extent asserts, then the data-size check.  Returns the
abort message of the first violated check. -/
def uploadChecks (m : TextureAnyMipmap) (x_offset y_offset z_offset : Nat)
    (regen : Bool) (dataByteLen data_bufsize width : Nat)
    (height depth : Option Nat) : Option String :=
  if regen && m.level != 0 then
    some "assertion failed: !regen_mipmaps || level == 0"
  else if ¬ (x_offset ≤ m.width) then
    some "assertion failed: x_offset <= self.width"
  else if ¬ (y_offset ≤ m.height.getD 1) then
    some "assertion failed: y_offset <= self.height.unwrap_or(1)"
  else if ¬ (z_offset ≤ m.depth.getD 1) then
    some "assertion failed: z_offset <= self.depth.unwrap_or(1)"
  else if ¬ (x_offset + width ≤ m.width) then
    some "assertion failed: x_offset + width <= self.width"
  else if ¬ (y_offset + height.getD 1 ≤ m.height.getD 1) then
    some "assertion failed: y_offset + height <= self.height.unwrap_or(1)"
  else if ¬ (z_offset + depth.getD 1 ≤ m.depth.getD 1) then
    some "assertion failed: z_offset + depth <= self.depth.unwrap_or(1)"
  else if dataByteLen != data_bufsize then
    some "Texture data size mismatch"
  else
    none

/-- The bind-target dispatch of `upload_texture`: 3D and 2D-array targets
hit `unimplemented!`; 2D and 1D-array targets issue the sub-image call
and optionally regenerate mipmaps; everything else asserts
`z_offset == 0` and `y_offset == 0` and then hits `unimplemented!`. -/
def uploadDispatch (caps : Caps) (st : GLState) (m : TextureAnyMipmap)
    (x_offset y_offset z_offset : Nat) (width : Nat) (height : Option Nat)
    (is_client_compressed : Bool) (data_bufsize client_format client_type : Nat)
    (regen : Bool) : UploadOutcome :=
  let pre := uploadPrelude st m.texture
  let bp := (bind_to_current st m.texture).2.2
  if bp = .TEXTURE_3D ∨ bp = .TEXTURE_2D_ARRAY then
    .fatal pre "not implemented"
  else if bp = .TEXTURE_2D ∨ bp = .TEXTURE_1D_ARRAY then
    if z_offset != 0 then
      .fatal pre "assertion failed: z_offset == 0"
    else
      let sub :=
        if is_client_compressed then
          GLCall.CompressedTexSubImage2D bp m.level x_offset y_offset width
            (height.getD 1) client_format data_bufsize false
        else
          GLCall.TexSubImage2D bp m.level x_offset y_offset width
            (height.getD 1) client_format client_type false
      let gen :=
        if regen then
          if Version.ge caps.version ⟨.Gl, 3, 0⟩ then
            [GLCall.GenerateMipmap bp]
          else
            [GLCall.GenerateMipmapEXT bp]
        else []
      .ok (pre ++ [sub] ++ gen)
  else
    if z_offset != 0 then
      .fatal pre "assertion failed: z_offset == 0"
    else if y_offset != 0 then
      .fatal pre "assertion failed: y_offset == 0"
    else
      .fatal pre "not implemented"

/-- `TextureAnyMipmap::upload_texture`.  `dataByteLen` is the byte length
of the supplied slice (`data.len() * size_of::<P>()`). -/
def TextureAnyMipmap.upload_texture (env : ImageFormatEnv) (caps : Caps)
    (st : GLState) (m : TextureAnyMipmap)
    (x_offset y_offset z_offset : Nat) (format : ClientFormatAny)
    (dataByteLen : Nat) (width : Nat) (height depth : Option Nat)
    (regen_mipmaps : Bool) : UploadOutcome :=
  let is_client_compressed := format.is_compressed
  let data_bufsize := env.get_buffer_size format width height depth none
  let regen := regen_mipmaps && m.texture.levels ≥ 2 &&
               m.texture.generate_mipmaps && !is_client_compressed
  match uploadChecks m x_offset y_offset z_offset regen dataByteLen
      data_bufsize width height depth with
  | some msg => .fatal [] msg
  | none =>
    match env.client_format_to_glenum format m.texture.requested_format with
    | none => .err
    | some (client_format, client_type) =>
        uploadDispatch caps st m x_offset y_offset z_offset width height
          is_client_compressed data_bufsize client_format client_type regen

/-- The driver's answers to the three per-level queries issued by
`download_compressed_data`: the compressed flag (a `GLint`), the
compressed byte size, and the internal format code. -/
structure CompressedLevelQuery where
  is_compressed : Int
  buffer_size : Nat
  internal_format : Nat
  deriving DecidableEq, Repr

/-- The pixel-pack alignment adjustment chain of
`download_compressed_data`: tries 8 (leave untouched), then 4, then 2,
then 1, keyed on the destination address `ptr`. -/
def adjustPackAlignment (st : GLState) (ptr : Nat) : List GLCall × GLState :=
  if ptr % 8 = 0 then
    ([], st)
  else if ptr % 4 = 0 && st.pixel_store_pack_alignment != 4 then
    ([GLCall.PixelStorei GL_PACK_ALIGNMENT 4], { st with pixel_store_pack_alignment := 4 })
  else if ptr % 2 = 0 && st.pixel_store_pack_alignment > 2 then
    ([GLCall.PixelStorei GL_PACK_ALIGNMENT 2], { st with pixel_store_pack_alignment := 2 })
  else if st.pixel_store_pack_alignment != 1 then
    ([GLCall.PixelStorei GL_PACK_ALIGNMENT 1], { st with pixel_store_pack_alignment := 1 })
  else
    ([], st)

/-- `TextureAnyMipmap::download_compressed_data`.  `bufAddr` is the base
address of the freshly allocated host buffer.  Returns the optional
(format, byte length) result, the final shadow state, and the calls. -/
def TextureAnyMipmap.download_compressed_data (env : ImageFormatEnv)
    (drv : CompressedLevelQuery) (st : GLState) (bufAddr : Nat)
    (m : TextureAnyMipmap) :
    Option (ClientFormatAny × Nat) × GLState × List GLCall :=
  let level := m.level
  let bound := bind_to_current st m.texture
  let bp := bound.2.2
  let q1 := GLCall.GetTexLevelParameteriv bp level GL_TEXTURE_COMPRESSED
  if drv.is_compressed != 0 then
    let q2 := GLCall.GetTexLevelParameteriv bp level GL_TEXTURE_COMPRESSED_IMAGE_SIZE
    let q3 := GLCall.GetTexLevelParameteriv bp level GL_TEXTURE_INTERNAL_FORMAT
    match env.from_internal_compressed_format drv.internal_format with
    | some known_format =>
        let adj := adjustPackAlignment bound.2.1 bufAddr
        (some (known_format, drv.buffer_size), adj.2,
         bound.1 ++ [q1, q2, q3, GLCall.UnbindPixelPack] ++ adj.1 ++
           [GLCall.GetCompressedTexImage bp level])
    | none => (none, bound.2.1, bound.1 ++ [q1, q2, q3])
  else
    (none, bound.2.1, bound.1 ++ [q1])

/-- `TextureAny::get_internal_format`, state-passing: `q` is the outcome the
driver's format query would report (`get_format::get_format`, an external
collaborator).  Returns the result, the updated texture (cache cell), and
the number of driver queries issued by this call. -/
def TextureAny.get_internal_format (t : TextureAny)
    (q : Except GetFormatError InternalFormat) :
    (Except GetFormatError InternalFormat) × TextureAny × Nat :=
  match t.actual_format with
  | some format => (format, t, 0)
  | none => (q, { t with actual_format := some q }, 1)

/-! ## Trace predicates used by the theorems -/

namespace CreationOutcome

/-- The abort message, when creation aborted. -/
def fatalMsg : CreationOutcome → Option String
  | .fatal _ msg => some msg
  | _ => none

/-- The calls issued, for success and abort outcomes. -/
def callsOf : CreationOutcome → List GLCall
  | .ok cs _ => cs
  | .fatal cs _ => cs
  | .err _ => []

end CreationOutcome

namespace GLCall

/-- Every image or sub-image call this predicate sees targets level 0. -/
def levelZeroOnly (c : GLCall) : Bool := c.uploadLevel.getD 0 == 0

/-- A `glTexStorage{1,2,3}D` call carries level count `L` (vacuous on other
calls). -/
def storageLevelsIs (L : Nat) (c : GLCall) : Bool := c.storageLevels.getD L == L

/-- The call's data pointer, if it has one, is null. -/
def ptrNullOk (c : GLCall) : Bool := c.dataPtrNull.getD true

/-- The extents handed to an allocation call, padded with 1 for absent
axes. -/
def allocExtents : GLCall → Option (Nat × Nat × Nat)
  | .TexStorage1D _ _ _ w => some (w, 1, 1)
  | .TexStorage2D _ _ _ w h => some (w, h, 1)
  | .TexStorage3D _ _ _ w h d => some (w, h, d)
  | .TexStorage2DMultisample _ _ _ w h => some (w, h, 1)
  | .TexStorage3DMultisample _ _ _ w h d => some (w, h, d)
  | .TexImage1D _ _ _ w _ _ _ => some (w, 1, 1)
  | .TexImage2D _ _ _ w h _ _ _ => some (w, h, 1)
  | .TexImage3D _ _ _ w h d _ _ _ => some (w, h, d)
  | .CompressedTexImage1D _ _ _ w _ _ => some (w, 1, 1)
  | .CompressedTexImage2D _ _ _ w h _ _ => some (w, h, 1)
  | .CompressedTexImage3D _ _ _ w h d _ _ => some (w, h, d)
  | .TexImage2DMultisample _ _ _ w h => some (w, h, 1)
  | .TexImage3DMultisample _ _ _ w h d => some (w, h, d)
  | _ => none

/-- An allocation call's extents equal `e` (vacuous on non-allocations). -/
def allocExtentsOk (e : Nat × Nat × Nat) (c : GLCall) : Bool :=
  c.allocExtents.getD e == e

end GLCall

/-- The extents each allocation call is expected to receive for a shape:
the zero clamp `max 1 _` on every axis the source clamps — which is every
axis except the array-size axis of `Texture2dMultisampleArray`, passed
through raw. -/
def expectedAllocExtents (ty : Dimensions) : Nat × Nat × Nat :=
  match ty with
  | .Texture1d w => (max 1 w, 1, 1)
  | .Texture1dArray w a => (max 1 w, max 1 a, 1)
  | .Texture2d w h => (max 1 w, max 1 h, 1)
  | .Texture2dArray w h a => (max 1 w, max 1 h, max 1 a)
  | .Texture2dMultisample w h _ => (max 1 w, max 1 h, 1)
  | .Texture2dMultisampleArray w h a _ => (max 1 w, max 1 h, a)
  | .Texture3d w h d => (max 1 w, max 1 h, max 1 d)

/-- Does some extent axis of the shape equal zero (absent axes count as
nonzero)? -/
def hasZeroAxis (ty : Dimensions) : Bool :=
  let dims := dims_of ty
  dims.1 == 0 || dims.2.1.getD 1 == 0 || dims.2.2.1.getD 1 == 0 ||
    dims.2.2.2.1.getD 1 == 0

/-! ## Concrete fixtures for witnesses and counterexamples -/

def c1Texture : TextureAny :=
  { id := 1, requested_format := .Specific (.ColorFormat 0), actual_format := none,
    ty := .Texture2d 4 4, levels := 3, generate_mipmaps := true }

def c1View : TextureAnyMipmap :=
  { texture := c1Texture, layer := 0, level := 2, width := 1,
    height := some 1, depth := none }

/-- A concrete negotiator-and-oracle environment for concrete runs:
RGBA8 allocation format, pass-through client format, a 4-byte-per-texel
buffer-size rule, and one recognized compressed code. -/
def testEnv : ImageFormatEnv :=
  { format_request_to_glenum := fun _ _ => some (GL_RGBA, some 0x8058)
    client_format_to_glenum := fun c _ => some (c.code, GL_UNSIGNED_BYTE)
    get_buffer_size := fun _ w h d a => w * (h.getD 1) * (d.getD 1) * (a.getD 1) * 4
    from_internal_compressed_format := fun n => if n == 0x83F1 then some ⟨9, true⟩ else none }

def noExt : Extensions := ⟨false, false, false, false⟩

def capsGl45 : Caps := ⟨⟨.Gl, 4, 5⟩, noExt⟩

def capsGl21 : Caps := ⟨⟨.Gl, 2, 1⟩, noExt⟩

def capsGl15 : Caps := ⟨⟨.Gl, 1, 5⟩, noExt⟩

def capsGl31 : Caps := ⟨⟨.Gl, 3, 1⟩, noExt⟩

def st0 : GLState := ⟨1, 4, 0⟩

def fmtC : TextureFormatRequest := .Specific (.ColorFormat 3)

/-- The trace of a concrete storage-path creation (GL 4.5, `Texture2d 4 4`,
3 fixed levels, 64 bytes of RGBA data), used by the C2 witness. -/
def c2Calls : List GLCall :=
  [.UnbindPixelUnpack, .GenTextures, .BindTexture .TEXTURE_2D 7,
   .TexParameteri .TEXTURE_2D GL_TEXTURE_WRAP_S GL_REPEAT,
   .TexParameteri .TEXTURE_2D GL_TEXTURE_MAG_FILTER GL_LINEAR,
   .TexParameteri .TEXTURE_2D GL_TEXTURE_WRAP_T GL_REPEAT,
   .TexParameteri .TEXTURE_2D GL_TEXTURE_MIN_FILTER GL_LINEAR_MIPMAP_LINEAR,
   .TexStorage2D .TEXTURE_2D 3 0x8058 4 4,
   .TexSubImage2D .TEXTURE_2D 0 0 0 4 4 GL_RGBA GL_UNSIGNED_BYTE false]

def c2Tex : TextureAny :=
  { id := 7, requested_format := fmtC, actual_format := none,
    ty := .Texture2d 4 4, levels := 3, generate_mipmaps := false }

/-- The calls issued by an upload outcome (success or abort). -/
def UploadOutcome.callsOf : UploadOutcome → List GLCall
  | .ok cs => cs
  | .err => []
  | .fatal cs _ => cs

/-- A 4×4×4 3D texture, for the C8 witness. -/
def t8 : TextureAny :=
  { id := 4, requested_format := fmtC, actual_format := none,
    ty := .Texture3d 4 4 4, levels := 1, generate_mipmaps := false }

def m8 : TextureAnyMipmap :=
  { texture := t8, layer := 0, level := 0, width := 4,
    height := some 4, depth := some 4 }

/-- An 8×8 texture with two fixed levels and auto-generation disabled, for
the C5 counterexample. -/
def c5Tex : TextureAny :=
  { id := 3, requested_format := fmtC, actual_format := none,
    ty := .Texture2d 8 8, levels := 2, generate_mipmaps := false }

def c5View : TextureAnyMipmap :=
  { texture := c5Tex, layer := 0, level := 1, width := 4,
    height := some 4, depth := none }

/-- An 8×8 texture with two levels and auto-generation enabled, for the
amended-C5 witness. -/
def c5bTex : TextureAny :=
  { id := 5, requested_format := fmtC, actual_format := none,
    ty := .Texture2d 8 8, levels := 2, generate_mipmaps := true }

def c5bView : TextureAnyMipmap :=
  { texture := c5bTex, layer := 0, level := 1, width := 4,
    height := some 4, depth := none }

/-- Setup calls: the pre-allocation configuration traffic of the creation
path (alignment, unbind, generate, bind, parameters). -/
def GLCall.isSetup : GLCall → Bool
  | .PixelStorei _ _ => true
  | .UnbindPixelUnpack => true
  | .GenTextures => true
  | .BindTexture _ _ => true
  | .TexParameteri _ _ _ => true
  | _ => false

/-- Calls that allocate storage or transfer pixel data. -/
def GLCall.isTransfer (c : GLCall) : Bool := c.isAlloc || c.isSubImage

/-- Mipmap-generation calls. -/
def GLCall.isGenMipmapCall : GLCall → Bool
  | .GenerateMipmap _ => true
  | .GenerateMipmapEXT _ => true
  | _ => false

/-- Is the shape a multisample variant? -/
def Dimensions.isMultisample : Dimensions → Bool
  | .Texture2dMultisample _ _ _ => true
  | .Texture2dMultisampleArray _ _ _ _ => true
  | _ => false

/-! ## Theorems -/

theorem clampAxis_fst (w : Nat) (b : Bool) : (clampAxis w b).1 = max 1 w := by
  cases w with
  | zero => simp [clampAxis]
  | succ n => simp [clampAxis, Nat.max_eq_right (Nat.succ_le_succ (Nat.zero_le n))]

theorem clampAxis_snd (w : Nat) (b : Bool) : (clampAxis w b).2 = (b || (w == 0)) := by
  cases w <;> simp [clampAxis]

theorem clampChain2_snd (w h : Nat) (dn : Bool) :
    (clampAxis h (clampAxis w dn).2).2 = ((dn || (w == 0)) || (h == 0)) := by
  simp [clampAxis_snd]

theorem clampChain3_snd (w h dpt : Nat) (dn : Bool) :
    (clampAxis dpt (clampAxis h (clampAxis w dn).2).2).2 =
      (((dn || (w == 0)) || (h == 0)) || (dpt == 0)) := by
  simp [clampAxis_snd]

theorem ite_zero_eq_max_one (w : Nat) : (if w = 0 then 1 else w) = max 1 w := by
  cases w with
  | zero => simp
  | succ n => simp [Nat.max_eq_right (Nat.succ_le_succ (Nat.zero_le n))]

set_option maxHeartbeats 1000000 in
theorem alloc3d_spec (sc : Bool) (bp : BindPoint) (teximg : Nat)
    (storage : Option Nat) (cfmt ctype L : Nat) (isComp : Bool) (bufsize : Nat)
    (w h dpt : Nat) (dn : Bool) :
    (alloc3d sc bp teximg storage cfmt ctype L isComp bufsize w h dpt dn).any
        (fun c => c.isStorageAlloc) = sc ∧
    (alloc3d sc bp teximg storage cfmt ctype L isComp bufsize w h dpt dn).all
        GLCall.levelZeroOnly = true ∧
    (alloc3d sc bp teximg storage cfmt ctype L isComp bufsize w h dpt dn).all
        (GLCall.storageLevelsIs L) = true ∧
    (sc = true →
      (alloc3d sc bp teximg storage cfmt ctype L isComp bufsize w h dpt dn).countP
        (fun c => c.isStorageAlloc) = 1 ∧
      (alloc3d sc bp teximg storage cfmt ctype L isComp bufsize w h dpt dn).countP
        (fun c => c.isImageAlloc) = 0) ∧
    (sc = false →
      (alloc3d sc bp teximg storage cfmt ctype L isComp bufsize w h dpt dn).countP
        (fun c => c.isImageAlloc) = 1 ∧
      (alloc3d sc bp teximg storage cfmt ctype L isComp bufsize w h dpt dn).countP
        (fun c => c.isStorageAlloc) = 0 ∧
      (alloc3d sc bp teximg storage cfmt ctype L isComp bufsize w h dpt dn).countP
        (fun c => c.isSubImage) = 0) ∧
    ((((dn || (w == 0)) || (h == 0)) || (dpt == 0)) = true →
      (alloc3d sc bp teximg storage cfmt ctype L isComp bufsize w h dpt dn).countP
        (fun c => c.isSubImage) = 0 ∧
      (alloc3d sc bp teximg storage cfmt ctype L isComp bufsize w h dpt dn).all
        GLCall.ptrNullOk = true) ∧
    (alloc3d sc bp teximg storage cfmt ctype L isComp bufsize w h dpt dn).all
        (GLCall.allocExtentsOk (max 1 w, max 1 h, max 1 dpt)) = true := by
  cases hb : (((dn || (w == 0)) || (h == 0)) || (dpt == 0)) <;>
    cases hsc : sc <;> cases hcomp : isComp <;>
      simp only [alloc3d, clampAxis_fst, clampChain3_snd, hb, hsc, hcomp,
        Bool.not_true, Bool.not_false, Bool.and_true, Bool.and_false,
        if_true, if_false, Bool.false_and, Bool.true_and] <;>
      simp [GLCall.isStorageAlloc, GLCall.isImageAlloc, GLCall.isSubImage,
        GLCall.levelZeroOnly, GLCall.storageLevelsIs, GLCall.uploadLevel,
        GLCall.storageLevels, GLCall.ptrNullOk, GLCall.dataPtrNull,
        GLCall.allocExtentsOk, GLCall.allocExtents, List.countP_cons,
        List.countP_nil]

set_option maxHeartbeats 1000000 in
theorem alloc2d_spec (sc : Bool) (bp : BindPoint) (teximg : Nat)
    (storage : Option Nat) (cfmt ctype L : Nat) (isComp : Bool) (bufsize : Nat)
    (w h : Nat) (dn : Bool) :
    (alloc2d sc bp teximg storage cfmt ctype L isComp bufsize w h dn).any
        (fun c => c.isStorageAlloc) = sc ∧
    (alloc2d sc bp teximg storage cfmt ctype L isComp bufsize w h dn).all
        GLCall.levelZeroOnly = true ∧
    (alloc2d sc bp teximg storage cfmt ctype L isComp bufsize w h dn).all
        (GLCall.storageLevelsIs L) = true ∧
    (sc = true →
      (alloc2d sc bp teximg storage cfmt ctype L isComp bufsize w h dn).countP
        (fun c => c.isStorageAlloc) = 1 ∧
      (alloc2d sc bp teximg storage cfmt ctype L isComp bufsize w h dn).countP
        (fun c => c.isImageAlloc) = 0) ∧
    (sc = false →
      (alloc2d sc bp teximg storage cfmt ctype L isComp bufsize w h dn).countP
        (fun c => c.isImageAlloc) = 1 ∧
      (alloc2d sc bp teximg storage cfmt ctype L isComp bufsize w h dn).countP
        (fun c => c.isStorageAlloc) = 0 ∧
      (alloc2d sc bp teximg storage cfmt ctype L isComp bufsize w h dn).countP
        (fun c => c.isSubImage) = 0) ∧
    (((dn || (w == 0)) || (h == 0)) = true →
      (alloc2d sc bp teximg storage cfmt ctype L isComp bufsize w h dn).countP
        (fun c => c.isSubImage) = 0 ∧
      (alloc2d sc bp teximg storage cfmt ctype L isComp bufsize w h dn).all
        GLCall.ptrNullOk = true) ∧
    (alloc2d sc bp teximg storage cfmt ctype L isComp bufsize w h dn).all
        (GLCall.allocExtentsOk (max 1 w, max 1 h, 1)) = true := by
  cases hb : ((dn || (w == 0)) || (h == 0)) <;>
    cases hsc : sc <;> cases hcomp : isComp <;>
      simp only [alloc2d, clampAxis_fst, clampChain2_snd, hb, hsc, hcomp,
        Bool.not_true, Bool.not_false, Bool.and_true, Bool.and_false,
        if_true, if_false, Bool.false_and, Bool.true_and] <;>
      simp [GLCall.isStorageAlloc, GLCall.isImageAlloc, GLCall.isSubImage,
        GLCall.levelZeroOnly, GLCall.storageLevelsIs, GLCall.uploadLevel,
        GLCall.storageLevels, GLCall.ptrNullOk, GLCall.dataPtrNull,
        GLCall.allocExtentsOk, GLCall.allocExtents, List.countP_cons,
        List.countP_nil]

set_option maxHeartbeats 1000000 in
theorem alloc1d_spec (sc : Bool) (bp : BindPoint) (teximg : Nat)
    (storage : Option Nat) (cfmt ctype L : Nat) (isComp : Bool) (bufsize : Nat)
    (w : Nat) (dn : Bool) :
    (alloc1d sc bp teximg storage cfmt ctype L isComp bufsize w dn).any
        (fun c => c.isStorageAlloc) = sc ∧
    (alloc1d sc bp teximg storage cfmt ctype L isComp bufsize w dn).all
        GLCall.levelZeroOnly = true ∧
    (alloc1d sc bp teximg storage cfmt ctype L isComp bufsize w dn).all
        (GLCall.storageLevelsIs L) = true ∧
    (sc = true →
      (alloc1d sc bp teximg storage cfmt ctype L isComp bufsize w dn).countP
        (fun c => c.isStorageAlloc) = 1 ∧
      (alloc1d sc bp teximg storage cfmt ctype L isComp bufsize w dn).countP
        (fun c => c.isImageAlloc) = 0) ∧
    (sc = false →
      (alloc1d sc bp teximg storage cfmt ctype L isComp bufsize w dn).countP
        (fun c => c.isImageAlloc) = 1 ∧
      (alloc1d sc bp teximg storage cfmt ctype L isComp bufsize w dn).countP
        (fun c => c.isStorageAlloc) = 0 ∧
      (alloc1d sc bp teximg storage cfmt ctype L isComp bufsize w dn).countP
        (fun c => c.isSubImage) = 0) ∧
    ((dn || (w == 0)) = true →
      (alloc1d sc bp teximg storage cfmt ctype L isComp bufsize w dn).countP
        (fun c => c.isSubImage) = 0 ∧
      (alloc1d sc bp teximg storage cfmt ctype L isComp bufsize w dn).all
        GLCall.ptrNullOk = true) ∧
    (alloc1d sc bp teximg storage cfmt ctype L isComp bufsize w dn).all
        (GLCall.allocExtentsOk (max 1 w, 1, 1)) = true := by
  cases hb : (dn || (w == 0)) <;>
    cases hsc : sc <;> cases hcomp : isComp <;>
      simp only [alloc1d, clampAxis_fst, clampAxis_snd, hb, hsc, hcomp,
        Bool.not_true, Bool.not_false, Bool.and_true, Bool.and_false,
        if_true, if_false, Bool.false_and, Bool.true_and] <;>
      simp [GLCall.isStorageAlloc, GLCall.isImageAlloc, GLCall.isSubImage,
        GLCall.levelZeroOnly, GLCall.storageLevelsIs, GLCall.uploadLevel,
        GLCall.storageLevels, GLCall.ptrNullOk, GLCall.dataPtrNull,
        GLCall.allocExtentsOk, GLCall.allocExtents, List.countP_cons,
        List.countP_nil]

theorem allocMs2d_spec (sc msCap : Bool) (teximg : Nat) (storage : Option Nat)
    (samples w h : Nat) (dn : Bool) (ac : List GLCall)
    (hok : allocMs2d sc msCap teximg storage samples w h dn = .ok ac) :
    dn = true ∧
    ac.any (fun c => c.isStorageAlloc) = sc ∧
    ac.all GLCall.levelZeroOnly = true ∧
    (∀ L : Nat, ac.all (GLCall.storageLevelsIs L) = true) ∧
    (sc = true → ac.countP (fun c => c.isStorageAlloc) = 1 ∧
      ac.countP (fun c => c.isImageAlloc) = 0) ∧
    (sc = false → ac.countP (fun c => c.isImageAlloc) = 1 ∧
      ac.countP (fun c => c.isStorageAlloc) = 0 ∧
      ac.countP (fun c => c.isSubImage) = 0) ∧
    ac.countP (fun c => c.isSubImage) = 0 ∧
    ac.all GLCall.ptrNullOk = true ∧
    ac.all (GLCall.allocExtentsOk (max 1 w, max 1 h, 1)) = true := by
  cases hdn : dn <;> cases hsc : sc <;> cases hms : msCap <;>
    simp only [allocMs2d, hdn, hsc, hms, Bool.not_true, Bool.not_false,
      if_true, if_false] at hok <;>
    cases hok
  all_goals
    refine ⟨rfl, ?_, ?_, ?_, ?_, ?_, ?_, ?_, ?_⟩ <;>
      (intros ;
        simp_all [ite_zero_eq_max_one, GLCall.isStorageAlloc,
          GLCall.isImageAlloc, GLCall.isSubImage, GLCall.levelZeroOnly,
          GLCall.storageLevelsIs, GLCall.uploadLevel, GLCall.storageLevels,
          GLCall.ptrNullOk, GLCall.dataPtrNull, GLCall.allocExtentsOk,
          GLCall.allocExtents, List.countP_cons, List.countP_nil])

theorem allocMs3d_spec (sc msCap : Bool) (teximg : Nat) (storage : Option Nat)
    (samples w h a : Nat) (dn : Bool) (ac : List GLCall)
    (hok : allocMs3d sc msCap teximg storage samples w h a dn = .ok ac) :
    dn = true ∧
    ac.any (fun c => c.isStorageAlloc) = sc ∧
    ac.all GLCall.levelZeroOnly = true ∧
    (∀ L : Nat, ac.all (GLCall.storageLevelsIs L) = true) ∧
    (sc = true → ac.countP (fun c => c.isStorageAlloc) = 1 ∧
      ac.countP (fun c => c.isImageAlloc) = 0) ∧
    (sc = false → ac.countP (fun c => c.isImageAlloc) = 1 ∧
      ac.countP (fun c => c.isStorageAlloc) = 0 ∧
      ac.countP (fun c => c.isSubImage) = 0) ∧
    ac.countP (fun c => c.isSubImage) = 0 ∧
    ac.all GLCall.ptrNullOk = true ∧
    ac.all (GLCall.allocExtentsOk (max 1 w, max 1 h, a)) = true := by
  cases hdn : dn <;> cases hsc : sc <;> cases hms : msCap <;>
    simp only [allocMs3d, hdn, hsc, hms, Bool.not_true, Bool.not_false,
      if_true, if_false] at hok <;>
    cases hok
  all_goals
    refine ⟨rfl, ?_, ?_, ?_, ?_, ?_, ?_, ?_, ?_⟩ <;>
      (intros ;
        simp_all [ite_zero_eq_max_one, GLCall.isStorageAlloc,
          GLCall.isImageAlloc, GLCall.isSubImage, GLCall.levelZeroOnly,
          GLCall.storageLevelsIs, GLCall.uploadLevel, GLCall.storageLevels,
          GLCall.ptrNullOk, GLCall.dataPtrNull, GLCall.allocExtentsOk,
          GLCall.allocExtents, List.countP_cons, List.countP_nil])

theorem isSetup_props (c : GLCall) (h : c.isSetup = true) :
    c.isAlloc = false ∧ c.isSubImage = false ∧ c.uploadLevel = none ∧
    c.storageLevels = none ∧ c.dataPtrNull = none ∧ c.allocExtents = none := by
  cases c <;> simp_all [GLCall.isSetup, GLCall.isAlloc, GLCall.isStorageAlloc,
    GLCall.isImageAlloc, GLCall.isSubImage, GLCall.uploadLevel,
    GLCall.storageLevels, GLCall.dataPtrNull, GLCall.allocExtents]

theorem preludeCalls_setup (caps : Caps) (st : GLState) (ty : Dimensions)
    (bp : BindPoint) (id : Nat) (hm : Bool) :
    (preludeCalls caps st ty bp id hm).all GLCall.isSetup = true := by
  unfold preludeCalls
  rcases ty <;> split_ifs <;> simp [GLCall.isSetup]

theorem mem_GenTextures_preludeCalls (caps : Caps) (st : GLState) (ty : Dimensions)
    (bp : BindPoint) (id : Nat) (hm : Bool) :
    GLCall.GenTextures ∈ preludeCalls caps st ty bp id hm := by
  unfold preludeCalls
  simp

theorem isTransfer_false_props (c : GLCall) (h : c.isTransfer = false) :
    c.isStorageAlloc = false ∧ c.isImageAlloc = false ∧ c.isSubImage = false ∧
    c.uploadLevel = none ∧ c.storageLevels = none ∧ c.dataPtrNull = none ∧
    c.allocExtents = none := by
  cases c <;> simp_all [GLCall.isTransfer, GLCall.isAlloc, GLCall.isStorageAlloc,
    GLCall.isImageAlloc, GLCall.isSubImage, GLCall.uploadLevel,
    GLCall.storageLevels, GLCall.dataPtrNull, GLCall.allocExtents]

theorem nonTransfer_list_props (l : List GLCall)
    (hl : ∀ c ∈ l, c.isTransfer = false) (L : Nat) (e : Nat × Nat × Nat) :
    l.any (fun c => c.isStorageAlloc) = false ∧
    l.countP (fun c => c.isStorageAlloc) = 0 ∧
    l.countP (fun c => c.isImageAlloc) = 0 ∧
    l.countP (fun c => c.isSubImage) = 0 ∧
    l.all GLCall.levelZeroOnly = true ∧
    l.all (GLCall.storageLevelsIs L) = true ∧
    l.all GLCall.ptrNullOk = true ∧
    l.all (GLCall.allocExtentsOk e) = true := by
  refine ⟨?_, ?_, ?_, ?_, ?_, ?_, ?_, ?_⟩
  · rw [List.any_eq_false]
    intro c hc
    simp [(isTransfer_false_props c (hl c hc)).1]
  · rw [List.countP_eq_zero]
    intro c hc
    simp [(isTransfer_false_props c (hl c hc)).1]
  · rw [List.countP_eq_zero]
    intro c hc
    simp [(isTransfer_false_props c (hl c hc)).2.1]
  · rw [List.countP_eq_zero]
    intro c hc
    simp [(isTransfer_false_props c (hl c hc)).2.2.1]
  · rw [List.all_eq_true]
    intro c hc
    simp [GLCall.levelZeroOnly, (isTransfer_false_props c (hl c hc)).2.2.2.1]
  · rw [List.all_eq_true]
    intro c hc
    simp [GLCall.storageLevelsIs, (isTransfer_false_props c (hl c hc)).2.2.2.2.1]
  · rw [List.all_eq_true]
    intro c hc
    simp [GLCall.ptrNullOk, (isTransfer_false_props c (hl c hc)).2.2.2.2.2.1]
  · rw [List.all_eq_true]
    intro c hc
    simp [GLCall.allocExtentsOk, (isTransfer_false_props c (hl c hc)).2.2.2.2.2.2]

theorem preludeCalls_nonTransfer (caps : Caps) (st : GLState) (ty : Dimensions)
    (bp : BindPoint) (id : Nat) (hm : Bool) :
    ∀ c ∈ preludeCalls caps st ty bp id hm, c.isTransfer = false := by
  intro c hc
  have hs := List.all_eq_true.mp (preludeCalls_setup caps st ty bp id hm) c hc
  cases c <;> simp_all [GLCall.isSetup, GLCall.isTransfer, GLCall.isAlloc,
    GLCall.isStorageAlloc, GLCall.isImageAlloc, GLCall.isSubImage]

theorem genMipmapCalls_nonTransfer (caps : Caps) (g : Bool) (bp : BindPoint)
    (gc : List GLCall) (hok : genMipmapCalls caps g bp = .ok gc) :
    ∀ c ∈ gc, c.isTransfer = false := by
  unfold genMipmapCalls at hok
  split_ifs at hok <;> cases hok <;> intro c hc <;>
    simp_all [GLCall.isTransfer, GLCall.isAlloc, GLCall.isStorageAlloc,
      GLCall.isImageAlloc, GLCall.isSubImage]

theorem allocCalls_spec (caps : Caps) (ty : Dimensions) (teximg : Nat)
    (storage : Option Nat) (cfmt ctype L : Nat) (isComp : Bool) (bufsize : Nat)
    (dn : Bool) (ac : List GLCall)
    (hok : allocCalls caps ty teximg storage cfmt ctype L isComp bufsize dn = .ok ac) :
    ac.any (fun c => c.isStorageAlloc) = (storage.isSome && storageCap caps) ∧
    ac.all GLCall.levelZeroOnly = true ∧
    ac.all (GLCall.storageLevelsIs L) = true ∧
    ((storage.isSome && storageCap caps) = true →
      ac.countP (fun c => c.isStorageAlloc) = 1 ∧
      ac.countP (fun c => c.isImageAlloc) = 0) ∧
    ((storage.isSome && storageCap caps) = false →
      ac.countP (fun c => c.isImageAlloc) = 1 ∧
      ac.countP (fun c => c.isStorageAlloc) = 0 ∧
      ac.countP (fun c => c.isSubImage) = 0) ∧
    (dn = true → ac.countP (fun c => c.isSubImage) = 0 ∧
      ac.all GLCall.ptrNullOk = true) ∧
    (hasZeroAxis ty = true → ac.countP (fun c => c.isSubImage) = 0 ∧
      ac.all GLCall.ptrNullOk = true) ∧
    ac.all (GLCall.allocExtentsOk (expectedAllocExtents ty)) = true := by
  cases ty with
  | Texture3d w h dpt =>
    simp only [allocCalls] at hok
    cases hok
    have hs := alloc3d_spec (storage.isSome && storageCap caps) .TEXTURE_3D
      teximg storage cfmt ctype L isComp bufsize w h dpt dn
    refine ⟨hs.1, hs.2.1, hs.2.2.1, hs.2.2.2.1, hs.2.2.2.2.1, ?_, ?_,
      by simpa [expectedAllocExtents] using hs.2.2.2.2.2.2⟩
    · intro hd
      exact hs.2.2.2.2.2.1 (by simp [hd])
    · intro hz
      refine hs.2.2.2.2.2.1 ?_
      simp only [hasZeroAxis, dims_of, Bool.or_eq_true, beq_iff_eq] at hz
      simp only [Bool.or_eq_true, beq_iff_eq]
      tauto
  | Texture2dArray w h a =>
    simp only [allocCalls] at hok
    cases hok
    have hs := alloc3d_spec (storage.isSome && storageCap caps) .TEXTURE_2D_ARRAY
      teximg storage cfmt ctype L isComp bufsize w h a dn
    refine ⟨hs.1, hs.2.1, hs.2.2.1, hs.2.2.2.1, hs.2.2.2.2.1, ?_, ?_,
      by simpa [expectedAllocExtents] using hs.2.2.2.2.2.2⟩
    · intro hd
      exact hs.2.2.2.2.2.1 (by simp [hd])
    · intro hz
      refine hs.2.2.2.2.2.1 ?_
      simp only [hasZeroAxis, dims_of, Bool.or_eq_true, beq_iff_eq] at hz
      simp only [Bool.or_eq_true, beq_iff_eq]
      tauto
  | Texture2d w h =>
    simp only [allocCalls] at hok
    cases hok
    have hs := alloc2d_spec (storage.isSome && storageCap caps) .TEXTURE_2D
      teximg storage cfmt ctype L isComp bufsize w h dn
    refine ⟨hs.1, hs.2.1, hs.2.2.1, hs.2.2.2.1, hs.2.2.2.2.1, ?_, ?_,
      by simpa [expectedAllocExtents] using hs.2.2.2.2.2.2⟩
    · intro hd
      exact hs.2.2.2.2.2.1 (by simp [hd])
    · intro hz
      refine hs.2.2.2.2.2.1 ?_
      simp only [hasZeroAxis, dims_of, Bool.or_eq_true, beq_iff_eq] at hz
      simp only [Bool.or_eq_true, beq_iff_eq]
      tauto
  | Texture1dArray w a =>
    simp only [allocCalls] at hok
    cases hok
    have hs := alloc2d_spec (storage.isSome && storageCap caps) .TEXTURE_1D_ARRAY
      teximg storage cfmt ctype L isComp bufsize w a dn
    refine ⟨hs.1, hs.2.1, hs.2.2.1, hs.2.2.2.1, hs.2.2.2.2.1, ?_, ?_,
      by simpa [expectedAllocExtents] using hs.2.2.2.2.2.2⟩
    · intro hd
      exact hs.2.2.2.2.2.1 (by simp [hd])
    · intro hz
      refine hs.2.2.2.2.2.1 ?_
      simp only [hasZeroAxis, dims_of, Bool.or_eq_true, beq_iff_eq] at hz
      simp only [Bool.or_eq_true, beq_iff_eq]
      tauto
  | Texture1d w =>
    simp only [allocCalls] at hok
    cases hok
    have hs := alloc1d_spec (storage.isSome && storageCap caps) .TEXTURE_1D
      teximg storage cfmt ctype L isComp bufsize w dn
    refine ⟨hs.1, hs.2.1, hs.2.2.1, hs.2.2.2.1, hs.2.2.2.2.1, ?_, ?_,
      by simpa [expectedAllocExtents] using hs.2.2.2.2.2.2⟩
    · intro hd
      exact hs.2.2.2.2.2.1 (by simp [hd])
    · intro hz
      refine hs.2.2.2.2.2.1 ?_
      simp only [hasZeroAxis, dims_of, Bool.or_eq_true, beq_iff_eq] at hz
      simp only [Bool.or_eq_true, beq_iff_eq]
      tauto
  | Texture2dMultisample w h s =>
    simp only [allocCalls] at hok
    have hs := allocMs2d_spec (storage.isSome && storageCap caps)
      (multisampleCap caps) teximg storage s w h dn ac hok
    exact ⟨hs.2.1, hs.2.2.1, hs.2.2.2.1 L, hs.2.2.2.2.1, hs.2.2.2.2.2.1,
      fun _ => ⟨hs.2.2.2.2.2.2.1, hs.2.2.2.2.2.2.2.1⟩,
      fun _ => ⟨hs.2.2.2.2.2.2.1, hs.2.2.2.2.2.2.2.1⟩,
      by simpa [expectedAllocExtents] using hs.2.2.2.2.2.2.2.2⟩
  | Texture2dMultisampleArray w h a s =>
    simp only [allocCalls] at hok
    have hs := allocMs3d_spec (storage.isSome && storageCap caps)
      (multisampleCap caps) teximg storage s w h a dn ac hok
    exact ⟨hs.2.1, hs.2.2.1, hs.2.2.2.1 L, hs.2.2.2.2.1, hs.2.2.2.2.2.1,
      fun _ => ⟨hs.2.2.2.2.2.2.1, hs.2.2.2.2.2.2.2.1⟩,
      fun _ => ⟨hs.2.2.2.2.2.2.1, hs.2.2.2.2.2.2.2.1⟩,
      by simpa [expectedAllocExtents] using hs.2.2.2.2.2.2.2.2⟩

/-- Claim C1: for every texture and every `(layer, level)`,
`mipmap(layer, level)` returns `none` iff `layer ≥ arraySizeOr1` or
`level ≥ levels`; otherwise the view's resolved width is
`max(1, width >> level)`, and likewise for height and depth on the shape
classes that have those axes (absent axes stay absent). -/
theorem C1_mipmap_none_iff_and_extents (t : TextureAny) (layer level : Nat) :
    (t.mipmap layer level = none ↔
      layer ≥ (t.get_array_size).getD 1 ∨ level ≥ t.levels) ∧
    (∀ m : TextureAnyMipmap, t.mipmap layer level = some m →
      m.width = max 1 (t.get_width >>> level) ∧
      m.height = t.get_height.map (fun h => max 1 (h >>> level)) ∧
      m.depth = t.get_depth.map (fun d => max 1 (d >>> level))) := by
  have hsr : ∀ n : Nat, n >>> level = n / 2 ^ level :=
    fun n => Nat.shiftRight_eq_div_pow n level
  constructor
  · simp only [TextureAny.mipmap]
    split_ifs with h1 h2
    · simp [h1]
    · simp [h2]
    · simp [h1, h2]
  · intro m hm
    simp only [TextureAny.mipmap] at hm
    split_ifs at hm
    cases hm
    refine ⟨?_, ?_, ?_⟩ <;> simp [hsr]

/-- Witness for C1 at `Texture2d 4 4` with 3 levels, `mipmap(0, 2)`. -/
theorem C1_mipmap_none_iff_and_extents_witness :
    c1Texture.mipmap 0 2 = some c1View ∧
    c1View.width = max 1 (c1Texture.get_width >>> 2) ∧
    c1View.height = c1Texture.get_height.map (fun h => max 1 (h >>> 2)) ∧
    c1View.depth = c1Texture.get_depth.map (fun d => max 1 (d >>> 2)) := by
  have h := (C1_mipmap_none_iff_and_extents c1Texture 0 2).2 c1View (by decide)
  exact ⟨by decide, h.1, h.2.1, h.2.2⟩

/-- Claim C2: the immutable-storage path is taken iff the negotiator
returned an allocation-format code and the driver has the
storage-allocation capability (GL ≥ 4.2 or `GL_ARB_texture_storage`); on
that path exactly one storage call allocates the full chain (`levels`
equals the texture's level count) and any upload is a level-0 sub-image;
otherwise no storage call is issued, exactly one image call allocates and
uploads level 0, and no other level is ever touched. -/
theorem C2_allocation_strategy_paths (env : ImageFormatEnv) (caps : Caps)
    (st : GLState) (format : TextureFormatRequest)
    (data : Option (ClientFormatAny × Nat)) (mip : MipmapsOption)
    (ty : Dimensions) (id : Nat) (calls : List GLCall) (tex : TextureAny)
    (teximg : Nat) (storage : Option Nat)
    (hok : new_texture env caps st format data mip ty id = .ok calls tex)
    (hnego : env.format_request_to_glenum (data.map Prod.fst) format =
      some (teximg, storage)) :
    calls.any (fun c => c.isStorageAlloc) = (storage.isSome && storageCap caps) ∧
    calls.all GLCall.levelZeroOnly = true ∧
    calls.all (GLCall.storageLevelsIs tex.levels) = true ∧
    ((storage.isSome && storageCap caps) = true →
      calls.countP (fun c => c.isStorageAlloc) = 1 ∧
      calls.countP (fun c => c.isImageAlloc) = 0) ∧
    ((storage.isSome && storageCap caps) = false →
      calls.countP (fun c => c.isImageAlloc) = 1 ∧
      calls.countP (fun c => c.isStorageAlloc) = 0 ∧
      calls.countP (fun c => c.isSubImage) = 0) ∧
    (data = none → calls.countP (fun c => c.isSubImage) = 0) := by
  simp only [new_texture, hnego] at hok
  split at hok
  · exact absurd hok (by simp)
  split at hok
  · exact absurd hok (by simp)
  split at hok
  · exact absurd hok (by simp)
  rename_i cpair cfc ctc heqc
  split at hok
  · exact absurd hok (by simp)
  rename_i ac heqa
  split at hok
  · exact absurd hok (by simp)
  rename_i gc heqg
  cases hok
  have hpre := nonTransfer_list_props
    (preludeCalls caps st ty (bindPointOf ty) id
      (decide (mip.num_levels (dims_of ty).1 (dims_of ty).2.1 (dims_of ty).2.2.1 > 1)))
    (preludeCalls_nonTransfer caps st ty (bindPointOf ty) id _)
    (mip.num_levels (dims_of ty).1 (dims_of ty).2.1 (dims_of ty).2.2.1)
    (expectedAllocExtents ty)
  have hgen := nonTransfer_list_props gc
    (genMipmapCalls_nonTransfer caps _ _ gc heqg)
    (mip.num_levels (dims_of ty).1 (dims_of ty).2.1 (dims_of ty).2.2.1)
    (expectedAllocExtents ty)
  have hal := allocCalls_spec caps ty teximg storage cfc ctc _ _ _ _ ac heqa
  refine ⟨?_, ?_, ?_, ?_, ?_, ?_⟩
  · simp [List.any_append, hpre.1, hgen.1, hal.1]
  · simp [List.all_append, hpre.2.2.2.2.1, hgen.2.2.2.2.1, hal.2.1]
  · simp [List.all_append, hpre.2.2.2.2.2.1, hgen.2.2.2.2.2.1, hal.2.2.1]
  · intro hc
    refine ⟨?_, ?_⟩
    · simp [List.countP_append, hpre.2.1, hgen.2.1, (hal.2.2.2.1 hc).1]
    · simp [List.countP_append, hpre.2.2.1, hgen.2.2.1, (hal.2.2.2.1 hc).2]
  · intro hc
    refine ⟨?_, ?_, ?_⟩
    · simp [List.countP_append, hpre.2.2.1, hgen.2.2.1, (hal.2.2.2.2.1 hc).1]
    · simp [List.countP_append, hpre.2.1, hgen.2.1, (hal.2.2.2.2.1 hc).2.1]
    · simp [List.countP_append, hpre.2.2.2.1, hgen.2.2.2.1, (hal.2.2.2.2.1 hc).2.2]
  · intro hd
    simp [List.countP_append, hpre.2.2.2.1, hgen.2.2.2.1,
      (hal.2.2.2.2.2.1 (by simp [hd])).1]

/-- Witness for C2 at a concrete storage-path creation on GL 4.5. -/
theorem C2_allocation_strategy_paths_witness :
    c2Calls.any (fun c => c.isStorageAlloc) =
      ((some (0x8058 : Nat)).isSome && storageCap capsGl45) ∧
    c2Calls.all GLCall.levelZeroOnly = true ∧
    c2Calls.all (GLCall.storageLevelsIs c2Tex.levels) = true ∧
    (((some (0x8058 : Nat)).isSome && storageCap capsGl45) = true →
      c2Calls.countP (fun c => c.isStorageAlloc) = 1 ∧
      c2Calls.countP (fun c => c.isImageAlloc) = 0) ∧
    (((some (0x8058 : Nat)).isSome && storageCap capsGl45) = false →
      c2Calls.countP (fun c => c.isImageAlloc) = 1 ∧
      c2Calls.countP (fun c => c.isStorageAlloc) = 0 ∧
      c2Calls.countP (fun c => c.isSubImage) = 0) ∧
    ((some (⟨GL_RGBA, false⟩, 64) : Option (ClientFormatAny × Nat)) = none →
      c2Calls.countP (fun c => c.isSubImage) = 0) :=
  C2_allocation_strategy_paths testEnv capsGl45 st0 fmtC
    (some (⟨GL_RGBA, false⟩, 64)) (.Fixed 3) (.Texture2d 4 4) 7 c2Calls c2Tex
    GL_RGBA (some 0x8058) (by decide) (by decide)

theorem accessors_eq_dims (t : TextureAny) :
    t.get_width = (dims_of t.ty).1 ∧ t.get_height = (dims_of t.ty).2.1 ∧
    t.get_depth = (dims_of t.ty).2.2.1 ∧
    t.get_array_size = (dims_of t.ty).2.2.2.1 := by
  rcases t with ⟨i, rf, af, ty, lv, gm⟩
  cases ty <;> simp [TextureAny.get_width, TextureAny.get_height,
    TextureAny.get_depth, TextureAny.get_array_size, dims_of]

theorem genMipmapCalls_isOk (caps : Caps) (g : Bool) (bp : BindPoint)
    (hcap : g = true → genMipmapCap caps = true) :
    ∃ gc, genMipmapCalls caps g bp = .ok gc := by
  cases g with
  | false => exact ⟨[], rfl⟩
  | true =>
    have hc := hcap rfl
    unfold genMipmapCap at hc
    by_cases h1 : (Version.ge caps.version ⟨.Gl, 3, 0⟩ ||
        Version.ge caps.version ⟨.GlEs, 2, 0⟩) = true
    · exact ⟨[GLCall.GenerateMipmap bp], by simp [genMipmapCalls, h1]⟩
    · have h2 : caps.extensions.gl_ext_framebuffer_object = true := by
        simp only [Bool.or_eq_true] at hc h1
        tauto
      exact ⟨[GLCall.GenerateMipmapEXT bp], by simp [genMipmapCalls, h1, h2]⟩

theorem allocCalls_isOk (caps : Caps) (ty : Dimensions) (teximg : Nat)
    (storage : Option Nat) (cfmt ctype L : Nat) (isComp : Bool) (bufsize : Nat)
    (dn : Bool)
    (hms : ty.isMultisample = true → dn = true ∧
      ((storage.isSome && storageCap caps) || multisampleCap caps) = true) :
    ∃ ac, allocCalls caps ty teximg storage cfmt ctype L isComp bufsize dn =
      .ok ac := by
  cases ty with
  | Texture2dMultisample w h s =>
    obtain ⟨hdn, hcap⟩ := hms rfl
    subst hdn
    cases hsc : (storage.isSome && storageCap caps) with
    | true =>
      exact ⟨[GLCall.TexStorage2DMultisample .TEXTURE_2D_MULTISAMPLE s
        (storage.getD 0) (if w = 0 then 1 else w) (if h = 0 then 1 else h)],
        by simp [allocCalls, allocMs2d, hsc]⟩
    | false =>
      have hmc : multisampleCap caps = true := by
        rw [hsc] at hcap
        simpa using hcap
      exact ⟨[GLCall.TexImage2DMultisample .TEXTURE_2D_MULTISAMPLE s teximg
        (if w = 0 then 1 else w) (if h = 0 then 1 else h)],
        by simp [allocCalls, allocMs2d, hsc, hmc]⟩
  | Texture2dMultisampleArray w h a s =>
    obtain ⟨hdn, hcap⟩ := hms rfl
    subst hdn
    cases hsc : (storage.isSome && storageCap caps) with
    | true =>
      exact ⟨[GLCall.TexStorage3DMultisample .TEXTURE_2D_MULTISAMPLE_ARRAY s
        (storage.getD 0) (if w = 0 then 1 else w) (if h = 0 then 1 else h) a],
        by simp [allocCalls, allocMs3d, hsc]⟩
    | false =>
      have hmc : multisampleCap caps = true := by
        rw [hsc] at hcap
        simpa using hcap
      exact ⟨[GLCall.TexImage3DMultisample .TEXTURE_2D_MULTISAMPLE_ARRAY s
        teximg (if w = 0 then 1 else w) (if h = 0 then 1 else h) a],
        by simp [allocCalls, allocMs3d, hsc, hmc]⟩
  | Texture1d w => exact ⟨_, rfl⟩
  | Texture1dArray w a => exact ⟨_, rfl⟩
  | Texture2d w h => exact ⟨_, rfl⟩
  | Texture2dArray w h a => exact ⟨_, rfl⟩
  | Texture3d w h dpt => exact ⟨_, rfl⟩

/-- Counterexample to claim C4: a creation request with a zero axis whose
data-size precondition holds can still fail — on a GL 1.5 driver without
the non-power-of-two extension, `Texture2d 0 4` is rejected with
`DimensionsNotSupported` instead of succeeding. -/
theorem C4_counterexample_zero_axis_can_fail :
    new_texture testEnv capsGl15 st0 fmtC none .NoMipmap (.Texture2d 0 4) 7 =
      .err .DimensionsNotSupported := by decide

/-- Claim C4, amended: when the power-of-two gate passes, both negotiations
succeed, multisample shapes carry no data and have an allocation
capability, and generation capability is present if requested, creation
succeeds; the returned texture stores the shape verbatim (so a zero axis
is reported as 0), every allocation call receives the clamped extents —
`max 1 _` per axis, except the array-size axis of
`Texture2dMultisampleArray`, which is passed through unclamped — and if
some axis is zero every data pointer in the trace is null and no
sub-image upload is issued. -/
theorem C4_zero_axis_amended (env : ImageFormatEnv) (caps : Caps)
    (st : GLState) (format : TextureFormatRequest)
    (data : Option (ClientFormatAny × Nat)) (mip : MipmapsOption)
    (ty : Dimensions) (id teximg : Nat) (storage : Option Nat) (cfc ctc : Nat)
    (hsize : sizeMismatchOf env data ty = false)
    (hnpot : npotFails caps (dims_of ty).1 (dims_of ty).2.1 (dims_of ty).2.2.1
      (dims_of ty).2.2.2.1 = false)
    (hnego : env.format_request_to_glenum (data.map Prod.fst) format =
      some (teximg, storage))
    (hcli : clientPairOf env data format = some (cfc, ctc))
    (hms : ty.isMultisample = true → data = none ∧
      ((storage.isSome && storageCap caps) || multisampleCap caps) = true)
    (hgen : mip.should_generate = true → genMipmapCap caps = true) :
    ∃ calls tex, new_texture env caps st format data mip ty id = .ok calls tex ∧
      tex.ty = ty ∧
      tex.get_width = (dims_of ty).1 ∧
      tex.get_height = (dims_of ty).2.1 ∧
      tex.get_depth = (dims_of ty).2.2.1 ∧
      tex.get_array_size = (dims_of ty).2.2.2.1 ∧
      calls.all (GLCall.allocExtentsOk (expectedAllocExtents ty)) = true ∧
      (hasZeroAxis ty = true →
        calls.all GLCall.ptrNullOk = true ∧
        calls.countP (fun c => c.isSubImage) = 0) := by
  obtain ⟨ac, hac⟩ := allocCalls_isOk caps ty teximg storage cfc ctc
    (mip.num_levels (dims_of ty).1 (dims_of ty).2.1 (dims_of ty).2.2.1)
    (isCompOf data) (bufsizeOf env data ty) data.isNone
    (fun hm => ⟨by simp [(hms hm).1], (hms hm).2⟩)
  obtain ⟨gc, hgc⟩ := genMipmapCalls_isOk caps mip.should_generate
    (bindPointOf ty) hgen
  have hpre := nonTransfer_list_props
    (preludeCalls caps st ty (bindPointOf ty) id
      (decide (mip.num_levels (dims_of ty).1 (dims_of ty).2.1 (dims_of ty).2.2.1 > 1)))
    (preludeCalls_nonTransfer caps st ty (bindPointOf ty) id _)
    (mip.num_levels (dims_of ty).1 (dims_of ty).2.1 (dims_of ty).2.2.1)
    (expectedAllocExtents ty)
  have hgenp := nonTransfer_list_props gc
    (genMipmapCalls_nonTransfer caps _ _ gc hgc)
    (mip.num_levels (dims_of ty).1 (dims_of ty).2.1 (dims_of ty).2.2.1)
    (expectedAllocExtents ty)
  have hal := allocCalls_spec caps ty teximg storage cfc ctc _ _ _ _ ac hac
  refine ⟨preludeCalls caps st ty (bindPointOf ty) id
      (decide (mip.num_levels (dims_of ty).1 (dims_of ty).2.1 (dims_of ty).2.2.1 > 1)) ++
      ac ++ gc,
    { id := id, requested_format := format, actual_format := none, ty := ty,
      levels := mip.num_levels (dims_of ty).1 (dims_of ty).2.1 (dims_of ty).2.2.1,
      generate_mipmaps := mip.should_generate },
    ?_, rfl, (accessors_eq_dims _).1, (accessors_eq_dims _).2.1,
    (accessors_eq_dims _).2.2.1, (accessors_eq_dims _).2.2.2, ?_, ?_⟩
  · simp only [new_texture, hnego, hsize, hnpot, Bool.false_eq_true, if_false,
      hcli, hac, hgc]
  · simp [List.all_append, hpre.2.2.2.2.2.2.2, hgenp.2.2.2.2.2.2.2,
      hal.2.2.2.2.2.2.2]
  · intro hz
    refine ⟨?_, ?_⟩
    · simp [List.all_append, hpre.2.2.2.2.2.2.1, hgenp.2.2.2.2.2.2.1,
        (hal.2.2.2.2.2.2.1 hz).2]
    · simp [List.countP_append, hpre.2.2.2.1, hgenp.2.2.2.1,
        (hal.2.2.2.2.2.2.1 hz).1]

/-- Witness for the amended C4 at `Texture2d 0 4` on GL 2.1 with no data. -/
theorem C4_zero_axis_amended_witness :
    ∃ calls tex, new_texture testEnv capsGl21 st0 fmtC none .NoMipmap
        (.Texture2d 0 4) 7 = .ok calls tex ∧
      tex.ty = .Texture2d 0 4 ∧
      tex.get_width = (dims_of (.Texture2d 0 4)).1 ∧
      tex.get_height = (dims_of (.Texture2d 0 4)).2.1 ∧
      tex.get_depth = (dims_of (.Texture2d 0 4)).2.2.1 ∧
      tex.get_array_size = (dims_of (.Texture2d 0 4)).2.2.2.1 ∧
      calls.all (GLCall.allocExtentsOk (expectedAllocExtents (.Texture2d 0 4))) = true ∧
      (hasZeroAxis (.Texture2d 0 4) = true →
        calls.all GLCall.ptrNullOk = true ∧
        calls.countP (fun c => c.isSubImage) = 0) :=
  C4_zero_axis_amended testEnv capsGl21 st0 fmtC none .NoMipmap
    (.Texture2d 0 4) 7 GL_RGBA (some 0x8058) GL_RGBA GL_UNSIGNED_BYTE
    (by decide) (by decide) (by decide) (by decide) (by decide) (by decide)

/-- Claim C10: there are capability inputs on which creation aborts
through `unreachable!` rather than returning a recoverable error — a
multisample texture on GL 3.1 without storage capability or the
multisample extension, and auto mipmap generation on GL 2.1 without
`GL_EXT_framebuffer_object`; the latter aborts after the allocation call
was already issued. -/
theorem C10_unreachable_capability_aborts :
    (new_texture testEnv capsGl31 st0 fmtC none (.Fixed 1)
      (.Texture2dMultisample 8 8 4) 7).fatalMsg =
      some "internal error: entered unreachable code" ∧
    (new_texture testEnv capsGl21 st0 fmtC none .AutoGenerated
      (.Texture2d 4 4) 7).fatalMsg =
      some "internal error: entered unreachable code" ∧
    ((new_texture testEnv capsGl21 st0 fmtC none .AutoGenerated
      (.Texture2d 4 4) 7).callsOf).any GLCall.isAlloc = true := by
  refine ⟨by decide, by decide, by decide⟩

/-- Counterexample to claim C6: creating a `Texture2dMultisample` with
initial data does abort, but only after the driver texture handle was
already allocated — `GenTextures` appears in the trace issued before the
abort. -/
theorem C6_counterexample_handle_allocated_before_abort :
    (new_texture testEnv capsGl45 st0 fmtC (some (⟨GL_RGBA, false⟩, 256)) (.Fixed 1)
      (.Texture2dMultisample 8 8 4) 7).fatalMsg =
      some "assertion failed: data_raw.is_null()" ∧
    GLCall.GenTextures ∈ (new_texture testEnv capsGl45 st0 fmtC
      (some (⟨GL_RGBA, false⟩, 256)) (.Fixed 1)
      (.Texture2dMultisample 8 8 4) 7).callsOf := by
  refine ⟨by decide, by decide⟩

/-- Claim C6, amended: for every multisample creation request — plain
`Texture2dMultisample` or `Texture2dMultisampleArray` — carrying initial
data (size precondition holding and both negotiations succeeding),
creation aborts on the null-data assertion before any allocation or
upload call is issued — but after the texture handle was generated and
bound (the trace up to the abort is setup traffic that includes
`GenTextures`). -/
theorem C6_multisample_data_abort_amended (env : ImageFormatEnv) (caps : Caps)
    (st : GLState) (format : TextureFormatRequest) (cf : ClientFormatAny)
    (len : Nat) (mip : MipmapsOption) (ty : Dimensions) (id teximg : Nat)
    (storage : Option Nat) (cfc ctc : Nat)
    (hms : ty.isMultisample = true)
    (hsize : sizeMismatchOf env (some (cf, len)) ty = false)
    (hnpot : npotFails caps (dims_of ty).1 (dims_of ty).2.1 (dims_of ty).2.2.1
      (dims_of ty).2.2.2.1 = false)
    (hnego : env.format_request_to_glenum (some cf) format = some (teximg, storage))
    (hcli : env.client_format_to_glenum cf format = some (cfc, ctc)) :
    ∃ cs, new_texture env caps st format (some (cf, len)) mip ty id =
        .fatal cs "assertion failed: data_raw.is_null()" ∧
      GLCall.GenTextures ∈ cs ∧
      cs.all (fun c => !c.isAlloc) = true ∧
      cs.all (fun c => !c.isSubImage) = true := by
  cases ty with
  | Texture2dMultisample w h s =>
    simp only [dims_of] at hnpot
    refine ⟨preludeCalls caps st (.Texture2dMultisample w h s)
      .TEXTURE_2D_MULTISAMPLE id (decide (mip.num_levels w (some h) none > 1)),
      ?_, ?_, ?_, ?_⟩
    · simp only [new_texture, dims_of, bindPointOf, clientPairOf, hsize, hnpot,
        Option.map_some', Option.isNone_some]
      rw [hnego, hcli]
      simp [allocCalls, allocMs2d]
    · exact mem_GenTextures_preludeCalls _ _ _ _ _ _
    · have hs := preludeCalls_setup caps st (.Texture2dMultisample w h s)
        .TEXTURE_2D_MULTISAMPLE id (decide (mip.num_levels w (some h) none > 1))
      rw [List.all_eq_true] at hs ⊢
      intro c hc
      simp [(isSetup_props c (hs c hc)).1]
    · have hs := preludeCalls_setup caps st (.Texture2dMultisample w h s)
        .TEXTURE_2D_MULTISAMPLE id (decide (mip.num_levels w (some h) none > 1))
      rw [List.all_eq_true] at hs ⊢
      intro c hc
      simp [(isSetup_props c (hs c hc)).2.1]
  | Texture2dMultisampleArray w h a s =>
    simp only [dims_of] at hnpot
    refine ⟨preludeCalls caps st (.Texture2dMultisampleArray w h a s)
      .TEXTURE_2D_MULTISAMPLE_ARRAY id
      (decide (mip.num_levels w (some h) none > 1)), ?_, ?_, ?_, ?_⟩
    · simp only [new_texture, dims_of, bindPointOf, clientPairOf, hsize, hnpot,
        Option.map_some', Option.isNone_some]
      rw [hnego, hcli]
      simp [allocCalls, allocMs3d]
    · exact mem_GenTextures_preludeCalls _ _ _ _ _ _
    · have hs := preludeCalls_setup caps st (.Texture2dMultisampleArray w h a s)
        .TEXTURE_2D_MULTISAMPLE_ARRAY id
        (decide (mip.num_levels w (some h) none > 1))
      rw [List.all_eq_true] at hs ⊢
      intro c hc
      simp [(isSetup_props c (hs c hc)).1]
    · have hs := preludeCalls_setup caps st (.Texture2dMultisampleArray w h a s)
        .TEXTURE_2D_MULTISAMPLE_ARRAY id
        (decide (mip.num_levels w (some h) none > 1))
      rw [List.all_eq_true] at hs ⊢
      intro c hc
      simp [(isSetup_props c (hs c hc)).2.1]
  | Texture1d w => simp [Dimensions.isMultisample] at hms
  | Texture1dArray w a => simp [Dimensions.isMultisample] at hms
  | Texture2d w h => simp [Dimensions.isMultisample] at hms
  | Texture2dArray w h a => simp [Dimensions.isMultisample] at hms
  | Texture3d w h d => simp [Dimensions.isMultisample] at hms

/-- Witness for the amended C6, exercising both multisample shapes: a
concrete 8×8, 4-sample request and a concrete 8×8×2-layer, 4-sample
array request on a GL 4.5 driver. -/
theorem C6_multisample_data_abort_amended_witness :
    (∃ cs, new_texture testEnv capsGl45 st0 fmtC (some (⟨GL_RGBA, false⟩, 256))
        (.Fixed 1) (.Texture2dMultisample 8 8 4) 7 =
        .fatal cs "assertion failed: data_raw.is_null()" ∧
      GLCall.GenTextures ∈ cs ∧
      cs.all (fun c => !c.isAlloc) = true ∧
      cs.all (fun c => !c.isSubImage) = true) ∧
    (∃ cs, new_texture testEnv capsGl45 st0 fmtC (some (⟨GL_RGBA, false⟩, 512))
        (.Fixed 1) (.Texture2dMultisampleArray 8 8 2 4) 9 =
        .fatal cs "assertion failed: data_raw.is_null()" ∧
      GLCall.GenTextures ∈ cs ∧
      cs.all (fun c => !c.isAlloc) = true ∧
      cs.all (fun c => !c.isSubImage) = true) :=
  ⟨C6_multisample_data_abort_amended testEnv capsGl45 st0 fmtC ⟨GL_RGBA, false⟩
    256 (.Fixed 1) (.Texture2dMultisample 8 8 4) 7 GL_RGBA (some 0x8058)
    GL_RGBA GL_UNSIGNED_BYTE (by decide) (by decide) (by decide) (by decide)
    (by decide),
   C6_multisample_data_abort_amended testEnv capsGl45 st0 fmtC ⟨GL_RGBA, false⟩
    512 (.Fixed 1) (.Texture2dMultisampleArray 8 8 2 4) 9 GL_RGBA (some 0x8058)
    GL_RGBA GL_UNSIGNED_BYTE (by decide) (by decide) (by decide) (by decide)
    (by decide)⟩

/-- Counterexample to claim C3: on a GL 1.5 driver without the
non-power-of-two extension, a request whose only extent is 0 — so every
non-zero extent is (vacuously) a power of two — is still rejected with
`DimensionsNotSupported`, because `u32::is_power_of_two(0)` is false. -/
theorem C3_counterexample_zero_extent_dimensions_error :
    new_texture testEnv capsGl15 st0 fmtC none .NoMipmap (.Texture1d 0) 7 =
      .err .DimensionsNotSupported := by decide

/-- Claim C3, amended: provided the data-size precondition holds,
creation returns `DimensionsNotSupported` exactly when the driver is
below GL 2.0 without `GL_ARB_texture_non_power_of_two` and some present
extent — zero extents included, since 0 is not a power of two — is not a
power of two (absent axes default to 2). -/
theorem C3_dimensions_not_supported_iff_amended (env : ImageFormatEnv)
    (caps : Caps) (st : GLState) (format : TextureFormatRequest)
    (data : Option (ClientFormatAny × Nat)) (mip : MipmapsOption)
    (ty : Dimensions) (id : Nat)
    (hsize : sizeMismatchOf env data ty = false) :
    new_texture env caps st format data mip ty id = .err .DimensionsNotSupported ↔
      npotFails caps (dims_of ty).1 (dims_of ty).2.1 (dims_of ty).2.2.1
        (dims_of ty).2.2.2.1 = true := by
  simp only [new_texture, hsize]
  cases hn : npotFails caps (dims_of ty).1 (dims_of ty).2.1 (dims_of ty).2.2.1
      (dims_of ty).2.2.2.1 with
  | true => simp
  | false =>
    simp only [Bool.false_eq_true, if_false, iff_false]
    intro hcontra
    split at hcontra
    · simp at hcontra
    · split at hcontra
      · simp at hcontra
      · split at hcontra
        · simp at hcontra
        · split at hcontra <;> simp at hcontra

/-- Witness for the amended C3: a 4×3 texture on GL 1.5 without the
extension is rejected (3 is not a power of two), while 4×4 is not
rejected. -/
theorem C3_dimensions_not_supported_iff_amended_witness :
    new_texture testEnv capsGl15 st0 fmtC none .NoMipmap (.Texture2d 4 3) 7 =
      .err .DimensionsNotSupported ∧
    (new_texture testEnv capsGl15 st0 fmtC none .NoMipmap (.Texture2d 4 4) 7 =
      .err .DimensionsNotSupported → False) :=
  ⟨(C3_dimensions_not_supported_iff_amended testEnv capsGl15 st0 fmtC none
      .NoMipmap (.Texture2d 4 3) 7 (by decide)).mpr (by decide),
   fun h => absurd ((C3_dimensions_not_supported_iff_amended testEnv capsGl15 st0
      fmtC none .NoMipmap (.Texture2d 4 4) 7 (by decide)).mp h) (by decide)⟩

/-- Claim C7: `get_internal_format` is memoized — two calls in sequence
with no intervening mutation return the same result and issue at most one
driver query in total; the cache only moves from not-yet-queried to
queried (the outcome stored exactly once) and never reverts. -/
theorem C7_get_internal_format_memoized (t : TextureAny)
    (q : Except GetFormatError InternalFormat) :
    (t.get_internal_format q).1 =
      ((t.get_internal_format q).2.1.get_internal_format q).1 ∧
    (t.get_internal_format q).2.2 +
      ((t.get_internal_format q).2.1.get_internal_format q).2.2 ≤ 1 ∧
    (t.get_internal_format q).2.1.actual_format =
      some (t.get_internal_format q).1 ∧
    ((t.get_internal_format q).2.1.get_internal_format q).2.1.actual_format =
      some (t.get_internal_format q).1 ∧
    ((t.actual_format = none ∧ (t.get_internal_format q).2.2 = 1) ∨
     (t.actual_format = some (t.get_internal_format q).1 ∧
      (t.get_internal_format q).2.2 = 0)) := by
  cases h : t.actual_format <;>
    simp [TextureAny.get_internal_format, h]

theorem bind_to_current_bp (st : GLState) (t : TextureAny) :
    (bind_to_current st t).2.2 = t.get_bind_point := by
  unfold bind_to_current
  split_ifs <;> rfl

theorem uploadPrelude_nonTransfer (st : GLState) (t : TextureAny) :
    ∀ c ∈ uploadPrelude st t, c.isTransfer = false := by
  intro c hc
  unfold uploadPrelude bind_to_current at hc
  split_ifs at hc <;> cases c <;>
    simp_all [GLCall.isTransfer, GLCall.isAlloc, GLCall.isStorageAlloc,
      GLCall.isImageAlloc, GLCall.isSubImage]

theorem uploadDispatch_unsupported (caps : Caps) (st : GLState)
    (m : TextureAnyMipmap) (x y z width : Nat) (height : Option Nat)
    (isComp : Bool) (bufsize cfc ctc : Nat) (regen : Bool)
    (hbp : m.texture.get_bind_point ≠ .TEXTURE_2D ∧
      m.texture.get_bind_point ≠ .TEXTURE_1D_ARRAY) :
    ∃ msg, uploadDispatch caps st m x y z width height isComp bufsize cfc ctc
      regen = .fatal (uploadPrelude st m.texture) msg := by
  unfold uploadDispatch
  simp only [bind_to_current_bp]
  split_ifs with g1 g2 g3 g4 <;>
    first
    | exact ⟨_, rfl⟩
    | exact absurd g2 (by tauto)

theorem upload_texture_cases (env : ImageFormatEnv) (caps : Caps) (st : GLState)
    (m : TextureAnyMipmap) (x y z : Nat) (format : ClientFormatAny)
    (len width : Nat) (height depth : Option Nat) (regen : Bool)
    (o : UploadOutcome)
    (hbp : m.texture.get_bind_point ≠ .TEXTURE_2D ∧
      m.texture.get_bind_point ≠ .TEXTURE_1D_ARRAY)
    (ho : m.upload_texture env caps st x y z format len width height depth
      regen = o) :
    (∃ msg, o = UploadOutcome.fatal [] msg) ∨
    (env.client_format_to_glenum format m.texture.requested_format = none ∧
      o = UploadOutcome.err) ∨
    (∃ msg, o = UploadOutcome.fatal (uploadPrelude st m.texture) msg) := by
  unfold TextureAnyMipmap.upload_texture at ho
  simp only [] at ho
  cases hchk : uploadChecks m x y z
      (regen && m.texture.levels ≥ 2 && m.texture.generate_mipmaps &&
        !format.is_compressed)
      len (env.get_buffer_size format width height depth none) width height
      depth with
  | some msg =>
    rw [hchk] at ho
    exact Or.inl ⟨msg, ho.symm⟩
  | none =>
    rw [hchk] at ho
    cases hcf : env.client_format_to_glenum format m.texture.requested_format with
    | none =>
      rw [hcf] at ho
      simp only [] at ho
      exact Or.inr (Or.inl ⟨rfl, ho.symm⟩)
    | some p =>
      obtain ⟨cfc, ctc⟩ := p
      rw [hcf] at ho
      simp only [] at ho
      obtain ⟨msg, hmsg⟩ := uploadDispatch_unsupported caps st m x y z width
        height format.is_compressed
        (env.get_buffer_size format width height depth none) cfc ctc
        (regen && m.texture.levels ≥ 2 && m.texture.generate_mipmaps &&
          !format.is_compressed) hbp
      rw [hmsg] at ho
      exact Or.inr (Or.inr ⟨msg, ho.symm⟩)

/-- Claim C8: for a view whose texture binds to a target other than 2D or
1D-array (3D, 2D-array, 1D, multisample), `upload_texture` never
succeeds, never issues a sub-image call, and — whenever the client-format
negotiation succeeds — aborts loudly; the sub-region upload call is thus
issued only for the 2D and 1D-array bind-target classes. -/
theorem C8_unsupported_shapes_fail_loudly (env : ImageFormatEnv) (caps : Caps)
    (st : GLState) (m : TextureAnyMipmap) (x y z : Nat)
    (format : ClientFormatAny) (len width : Nat) (height depth : Option Nat)
    (regen : Bool)
    (hbp : m.texture.get_bind_point ≠ .TEXTURE_2D ∧
      m.texture.get_bind_point ≠ .TEXTURE_1D_ARRAY) :
    (∀ calls, m.upload_texture env caps st x y z format len width height depth
      regen ≠ .ok calls) ∧
    (m.upload_texture env caps st x y z format len width height depth
      regen).callsOf.countP (fun c => c.isSubImage) = 0 ∧
    ((env.client_format_to_glenum format m.texture.requested_format).isSome =
        true →
      ∃ cs msg, m.upload_texture env caps st x y z format len width height depth
        regen = .fatal cs msg) := by
  have hcase := upload_texture_cases env caps st m x y z format len width height
    depth regen _ hbp rfl
  rcases hcase with ⟨msg, he⟩ | ⟨hn, he⟩ | ⟨msg, he⟩
  · refine ⟨?_, ?_, ?_⟩
    · intro calls hcontra
      rw [he] at hcontra
      exact UploadOutcome.noConfusion hcontra
    · rw [he]
      rfl
    · intro _
      exact ⟨[], msg, he⟩
  · refine ⟨?_, ?_, ?_⟩
    · intro calls hcontra
      rw [he] at hcontra
      exact UploadOutcome.noConfusion hcontra
    · rw [he]
      rfl
    · intro hs
      rw [hn] at hs
      simp at hs
  · refine ⟨?_, ?_, ?_⟩
    · intro calls hcontra
      rw [he] at hcontra
      exact UploadOutcome.noConfusion hcontra
    · rw [he]
      exact (nonTransfer_list_props (uploadPrelude st m.texture)
        (uploadPrelude_nonTransfer st m.texture) 0 (1, 1, 1)).2.2.2.1
    · intro _
      exact ⟨_, msg, he⟩

/-- Witness for C8 at a concrete 3D view: no sub-image call, and the
outcome is the `unimplemented!` abort after the setup calls. -/
theorem C8_unsupported_shapes_fail_loudly_witness :
    (m8.upload_texture testEnv capsGl45 st0 0 0 0 ⟨GL_RGBA, false⟩ 256 4
      (some 4) (some 4) false).callsOf.countP (fun c => c.isSubImage) = 0 ∧
    m8.upload_texture testEnv capsGl45 st0 0 0 0 ⟨GL_RGBA, false⟩ 256 4
      (some 4) (some 4) false = .fatal (uploadPrelude st0 t8) "not implemented" :=
  ⟨(C8_unsupported_shapes_fail_loudly testEnv capsGl45 st0 m8 0 0 0
      ⟨GL_RGBA, false⟩ 256 4 (some 4) (some 4) false (by decide)).2.1,
   by decide⟩

/-- Counterexample to claim C5: on a legitimately obtained level-1 view of
a texture created without auto-generation, `upload` with
`regenerateMipmaps = true` is NOT rejected — the weakened flag makes the
assert pass, the upload succeeds, and no mipmap-generation call appears
in the trace (regeneration silently skipped). -/
theorem C5_counterexample_silent_skip :
    c5Tex.mipmap 0 1 = some c5View ∧
    c5View.upload_texture testEnv capsGl45 st0 0 0 0 ⟨GL_RGBA, false⟩ 16 2
      (some 2) none true =
      .ok [.UnbindPixelUnpack, .BindTexture .TEXTURE_2D 3,
           .TexSubImage2D .TEXTURE_2D 1 0 0 2 2 GL_RGBA GL_UNSIGNED_BYTE false] :=
  ⟨by decide, by decide⟩

/-- Claim C5, amended: `upload` with `regenerateMipmaps = true` at a
non-zero level is rejected by the assertion exactly when the effective
flag survives the source's weakening — when the texture has ≥ 2 levels,
was created with auto-generation enabled, and the client format is not
compressed; otherwise the flag is silently cleared first and the call
proceeds with regeneration skipped. -/
theorem C5_regen_nonzero_level_abort_amended (env : ImageFormatEnv)
    (caps : Caps) (st : GLState) (m : TextureAnyMipmap) (x y z : Nat)
    (format : ClientFormatAny) (len width : Nat) (height depth : Option Nat)
    (hlvl : m.level ≠ 0)
    (hlev : m.texture.levels ≥ 2)
    (hgen : m.texture.generate_mipmaps = true)
    (hcomp : format.is_compressed = false) :
    m.upload_texture env caps st x y z format len width height depth true =
      .fatal [] "assertion failed: !regen_mipmaps || level == 0" := by
  have hd : decide (m.texture.levels ≥ 2) = true := decide_eq_true hlev
  have hb : (m.level != 0) = true := by simp [hlvl]
  simp [TextureAnyMipmap.upload_texture, uploadChecks, hgen, hcomp, hd, hb]

/-- Witness for the amended C5: with auto-generation enabled the same call
at level 1 aborts on the assertion before any driver call. -/
theorem C5_regen_nonzero_level_abort_amended_witness :
    c5bTex.mipmap 0 1 = some c5bView ∧
    c5bView.upload_texture testEnv capsGl45 st0 0 0 0 ⟨GL_RGBA, false⟩ 16 2
      (some 2) none true =
      .fatal [] "assertion failed: !regen_mipmaps || level == 0" :=
  ⟨by decide,
   C5_regen_nonzero_level_abort_amended testEnv capsGl45 st0 c5bView 0 0 0
     ⟨GL_RGBA, false⟩ 16 2 (some 2) none (by decide) (by decide) (by decide)
     (by decide)⟩

theorem bind_to_current_align (st : GLState) (t : TextureAny) :
    (bind_to_current st t).2.1.pixel_store_pack_alignment =
      st.pixel_store_pack_alignment := by
  unfold bind_to_current
  split_ifs <;> rfl

theorem adjustPackAlignment_spec (st : GLState) (ptr : Nat)
    (halign : st.pixel_store_pack_alignment = 1 ∨
      st.pixel_store_pack_alignment = 2 ∨
      st.pixel_store_pack_alignment = 4 ∨
      st.pixel_store_pack_alignment = 8) :
    ((adjustPackAlignment st ptr).2.pixel_store_pack_alignment = 1 ∨
     (adjustPackAlignment st ptr).2.pixel_store_pack_alignment = 2 ∨
     (adjustPackAlignment st ptr).2.pixel_store_pack_alignment = 4 ∨
     (adjustPackAlignment st ptr).2.pixel_store_pack_alignment = 8) ∧
    (adjustPackAlignment st ptr).2.pixel_store_pack_alignment ∣ ptr := by
  unfold adjustPackAlignment
  split_ifs with h8 h4 h2 h1
  · refine ⟨halign, ?_⟩
    have h8d : (8 : Nat) ∣ ptr := Nat.dvd_of_mod_eq_zero h8
    rcases halign with h | h | h | h <;> rw [h]
    · exact Nat.one_dvd ptr
    · exact dvd_trans (by norm_num) h8d
    · exact dvd_trans (by norm_num) h8d
    · exact h8d
  · simp only [Bool.and_eq_true, decide_eq_true_eq] at h4
    exact ⟨Or.inr (Or.inr (Or.inl rfl)), Nat.dvd_of_mod_eq_zero h4.1⟩
  · simp only [Bool.and_eq_true, decide_eq_true_eq] at h2
    exact ⟨Or.inr (Or.inl rfl), Nat.dvd_of_mod_eq_zero h2.1⟩
  · exact ⟨Or.inl rfl, Nat.one_dvd ptr⟩
  · have he : st.pixel_store_pack_alignment = 1 := by simpa using h1
    exact ⟨Or.inl he, he ▸ Nat.one_dvd ptr⟩

/-- Claim C9: `download_compressed_data` returns `none` exactly when the
driver reports the level uncompressed or the driver-internal compressed
code is unrecognized; otherwise it returns the recognized format with a
buffer of exactly the driver-queried compressed size, and the effective
pixel-pack alignment after the 8/4/2/1 adjustment chain lies in
{1, 2, 4, 8} and evenly divides the destination buffer's base address
(provided the incoming shadow alignment is one of {1, 2, 4, 8}). -/
theorem C9_download_compressed_spec (env : ImageFormatEnv)
    (drv : CompressedLevelQuery) (st : GLState) (bufAddr : Nat)
    (m : TextureAnyMipmap)
    (halign : st.pixel_store_pack_alignment = 1 ∨
      st.pixel_store_pack_alignment = 2 ∨
      st.pixel_store_pack_alignment = 4 ∨
      st.pixel_store_pack_alignment = 8) :
    ((m.download_compressed_data env drv st bufAddr).1 = none ↔
      drv.is_compressed = 0 ∨
      env.from_internal_compressed_format drv.internal_format = none) ∧
    (∀ kf len, (m.download_compressed_data env drv st bufAddr).1 =
        some (kf, len) →
      env.from_internal_compressed_format drv.internal_format = some kf ∧
      len = drv.buffer_size ∧
      ((m.download_compressed_data env drv st
          bufAddr).2.1.pixel_store_pack_alignment = 1 ∨
       (m.download_compressed_data env drv st
          bufAddr).2.1.pixel_store_pack_alignment = 2 ∨
       (m.download_compressed_data env drv st
          bufAddr).2.1.pixel_store_pack_alignment = 4 ∨
       (m.download_compressed_data env drv st
          bufAddr).2.1.pixel_store_pack_alignment = 8) ∧
      (m.download_compressed_data env drv st
        bufAddr).2.1.pixel_store_pack_alignment ∣ bufAddr) := by
  have halign' : (bind_to_current st m.texture).2.1.pixel_store_pack_alignment = 1 ∨
      (bind_to_current st m.texture).2.1.pixel_store_pack_alignment = 2 ∨
      (bind_to_current st m.texture).2.1.pixel_store_pack_alignment = 4 ∨
      (bind_to_current st m.texture).2.1.pixel_store_pack_alignment = 8 := by
    rw [bind_to_current_align]
    exact halign
  have hadj := adjustPackAlignment_spec (bind_to_current st m.texture).2.1
    bufAddr halign'
  by_cases hc : drv.is_compressed = 0
  · simp [TextureAnyMipmap.download_compressed_data, hc]
  · cases hm : env.from_internal_compressed_format drv.internal_format with
    | none => simp [TextureAnyMipmap.download_compressed_data, hc, hm]
    | some kf =>
      refine ⟨?_, ?_⟩
      · simp [TextureAnyMipmap.download_compressed_data, hc, hm]
      · intro kf' len hsome
        simp only [TextureAnyMipmap.download_compressed_data, hm] at hsome ⊢
        rw [if_pos (by simpa using hc)] at hsome
        simp only [] at hsome
        rw [if_pos (by simpa using hc)]
        simp only []
        cases hsome
        exact ⟨rfl, rfl, hadj.1, hadj.2⟩

/-- Witness for C9 at a concrete compressed level (code 0x83F1 recognized,
32 bytes, destination address 16, incoming alignment 4). -/
theorem C9_download_compressed_spec_witness :
    (m8.download_compressed_data testEnv ⟨1, 32, 0x83F1⟩ st0 16).1 =
      some (⟨9, true⟩, 32) ∧
    testEnv.from_internal_compressed_format 0x83F1 = some ⟨9, true⟩ ∧
    (32 : Nat) = (⟨1, 32, 0x83F1⟩ : CompressedLevelQuery).buffer_size ∧
    ((m8.download_compressed_data testEnv ⟨1, 32, 0x83F1⟩ st0
        16).2.1.pixel_store_pack_alignment = 1 ∨
     (m8.download_compressed_data testEnv ⟨1, 32, 0x83F1⟩ st0
        16).2.1.pixel_store_pack_alignment = 2 ∨
     (m8.download_compressed_data testEnv ⟨1, 32, 0x83F1⟩ st0
        16).2.1.pixel_store_pack_alignment = 4 ∨
     (m8.download_compressed_data testEnv ⟨1, 32, 0x83F1⟩ st0
        16).2.1.pixel_store_pack_alignment = 8) ∧
    (m8.download_compressed_data testEnv ⟨1, 32, 0x83F1⟩ st0
      16).2.1.pixel_store_pack_alignment ∣ 16 := by
  have h := (C9_download_compressed_spec testEnv ⟨1, 32, 0x83F1⟩ st0 16 m8
    (by decide)).2 ⟨9, true⟩ 32 (by decide)
  exact ⟨by decide, h.1, h.2.1, h.2.2.1, h.2.2.2⟩

end Glium
